import Mathlib

/-!
# UIComboBox: a shallow embedding of the dropdown widget

The definitions below follow `src/UIComboBox.cpp`, `src/UIComboBox.h` and
`src/UIComboBoxStyle.h` member by member.

Modelling conventions.

* C++ `int` values are `Int`.  Every `int` of the program is assumed to stay inside
  the range of `int` (signed overflow is undefined behaviour in C++), and the item
  vector to hold fewer than `2^31` entries, so `(int)_items.size()` is the length.
* The one value-changing conversion inside that range is the implicit conversion of
  `_maxVisibleItems` to `size_t` in `_items.size() > _maxVisibleItems`; it is `toSizeT`.
* A mutating method is a function from the widget to the new widget paired with the
  list of callback invocations it performed, in order.  A registered callback is only
  recorded: it is assumed not to call back into the widget.
* Only whether a callback is registered matters to the widget, so `_onSelectCallback`
  and `_onCollapseCallback` are booleans.
* The single floating-point expression of `handlePress` is a parameter (`ClickScroll`);
  `floatClickScroll` is its value in `float` arithmetic.  The floating-point
  expressions of `drawScrollBar` are evaluated in the model `F32` of `float`.
* Colours, fonts and the label text only reach the drawing code and are left out.
-/

/-- Rectangle of the base widget: position, width and height. -/
structure UIRect where
  x : Int
  y : Int
  w : Int
  h : Int
deriving DecidableEq, Repr

/-- `struct UIComboBoxItem`: a displayed text and its integer value. -/
structure UIComboBoxItem where
  text : String
  value : Int
deriving DecidableEq, Repr

/-- The dimension fields of `struct UIComboBoxStyle`, with their default values. -/
structure UIComboBoxStyle where
  itemHeight : Int := 30
  arrowSize : Int := 5
  maxVisibleItems : Int := 3
  scrollBarWidth : Int := 10
deriving DecidableEq, Repr

/-- One invocation of a registered callback, with the arguments it received. -/
inductive CallbackEvent where
  | onSelect (selectedIndex : Int) (selectedValue : Int)
  | onCollapse (clearedRect : UIRect)
deriving DecidableEq, Repr

/-- The data members of `class UIComboBox`, preceded by the three members of the base
widget that the methods read or write (`rect`, `enabled` and the redraw flag). -/
structure UIComboBox where
  rect : UIRect
  enabled : Bool
  dirty : Bool
  _style : UIComboBoxStyle
  _items : List UIComboBoxItem
  _selectedIndex : Int
  _isExpanded : Bool
  _collapsedHeight : Int
  _maxVisibleItems : Int
  _scrollOffset : Int
  _scrollBarWidth : Int
  _onSelectCallback : Bool
  _onCollapseCallback : Bool
deriving DecidableEq, Repr

/-- The value of `(int)(maxScrollOffset * clickRatio)` in `handlePress`, where
`clickRatio = (float)(ty - listTopY) / visibleListHeight`, as a function of
`maxScrollOffset`, `ty - listTopY` and `visibleListHeight`. -/
abbrev ClickScroll := Int → Int → Int → Int

/-- The `ClickScroll` of exact real arithmetic: the quotient truncated towards zero. -/
def exactClickScroll : ClickScroll :=
  fun maxScrollOffset dy visibleListHeight => Int.tdiv (maxScrollOffset * dy) visibleListHeight

/-- Conversion of an `int` to the 32-bit `size_t`: a negative value wraps around. -/
def toSizeT (i : Int) : Int :=
  if i < 0 then i + 2 ^ 32 else i

/-! ## Single-precision floating point

`float` is IEEE-754 binary32 with round-to-nearest, ties-to-even, every operation rounded
once (no extended intermediate precision, no fused multiply-add).  A value is kept as an
integer times a power of two.  The exponent range is not modelled: the values the widget
computes are quotients and products of `int`s, far from overflow and from the subnormal
range.  Division by zero, which gives an infinity or a NaN in C++, gives zero here. -/

/-- A `float` value: `m * 2 ^ e`. -/
structure F32 where
  m : Int
  e : Int
deriving DecidableEq, Repr

namespace F32

/-- The integer nearest to `num / den` for `den > 0`, a tie going to the even one. -/
def roundHalfEven (num den : Int) : Int :=
  let f := num / den
  let r := num % den
  if 2 * r < den then f else if 2 * r > den then f + 1 else if f % 2 = 0 then f else f + 1

/-- Number of halvings that take `n` below 2, with `fuel` halvings allowed. -/
def log2Fuel : Nat → Nat → Nat
  | 0, _ => 0
  | fuel + 1, n => if n < 2 then 0 else log2Fuel fuel (n / 2) + 1

/-- The integer part of the binary logarithm of `n ≥ 1`. -/
def log2 (n : Nat) : Nat :=
  log2Fuel n n

/-- The integer part of the binary logarithm of `p / q`, for `p, q ≥ 1`. -/
def ilog2 (p q : Nat) : Int :=
  let l0 : Int := (log2 p : Int) - (log2 q : Int)
  if l0 ≥ 0 then (if p < q * 2 ^ l0.toNat then l0 - 1 else l0)
  else (if p * 2 ^ (-l0).toNat < q then l0 - 1 else l0)

/-- The `float` nearest to `p / q * 2 ^ s`, for `q > 0`: a 24-bit significand. -/
def round (p q s : Int) : F32 :=
  if p = 0 then { m := 0, e := 0 }
  else
    let l := ilog2 p.natAbs q.natAbs
    let k := 23 - l
    let mant :=
      if k ≥ 0 then roundHalfEven (p * 2 ^ k.toNat) q
      else roundHalfEven p (q * 2 ^ (-k).toNat)
    { m := mant, e := l + s - 23 }

/-- The conversion `(float)i` of an integer. -/
def ofInt (i : Int) : F32 :=
  round i 1 0

/-- The quotient `a / b` of two `float`s. -/
def div (a b : F32) : F32 :=
  if b.m > 0 then round a.m b.m (a.e - b.e)
  else if b.m < 0 then round (-a.m) (-b.m) (a.e - b.e)
  else { m := 0, e := 0 }

/-- The product `a * b` of two `float`s. -/
def mul (a b : F32) : F32 :=
  round (a.m * b.m) 1 (a.e + b.e)

/-- The comparison `a < b` of two `float`s. -/
def lt (a b : F32) : Bool :=
  let e := min a.e b.e
  decide (a.m * 2 ^ (a.e - e).toNat < b.m * 2 ^ (b.e - e).toNat)

/-- The conversion `(int)a`: the fractional part is discarded. -/
def toInt (a : F32) : Int :=
  if a.e ≥ 0 then a.m * 2 ^ a.e.toNat else Int.tdiv a.m (2 ^ (-a.e).toNat)

/-- The rational number a `float` stands for. -/
def toRat (a : F32) : ℚ :=
  a.m * (2 : ℚ) ^ a.e

end F32

/-- The `ClickScroll` of `float` arithmetic: `clickRatio` is the rounded quotient of the
two converted integers, and the product with the converted `maxScrollOffset` is rounded
and then truncated. -/
def floatClickScroll : ClickScroll :=
  fun maxScrollOffset dy visibleListHeight =>
    (F32.mul (F32.ofInt maxScrollOffset)
      (F32.div (F32.ofInt dy) (F32.ofInt visibleListHeight))).toInt

namespace UIComboBox

/-- The constructor: `_collapsedHeight` is the height of the given rectangle, the two
scrolling parameters are copied from the style, and the remaining members take their
in-class initialisers.  `enabled` and `dirty` are set by the base constructor, which is
not part of the sources, and are therefore arguments. -/
def construct (rect : UIRect) (style : UIComboBoxStyle) (enabled : Bool) (dirty : Bool) :
    UIComboBox :=
  { rect := rect
    enabled := enabled
    dirty := dirty
    _style := style
    _items := []
    _selectedIndex := -1
    _isExpanded := false
    _collapsedHeight := rect.h
    _maxVisibleItems := style.maxVisibleItems
    _scrollOffset := 0
    _scrollBarWidth := style.scrollBarWidth
    _onSelectCallback := false
    _onCollapseCallback := false }

/-- Modelled from the spec: `setDirty` of the base widget, which is not part of the
sources; "dirty" is a flag requesting a repaint, and marking dirty stores the flag. -/
def setDirty (c : UIComboBox) (d : Bool) : UIComboBox :=
  { c with dirty := d }

/-- The expression `_items[i]` for an `int` index `i`.  The access is unchecked in C++;
it is only evaluated at valid indices, and the placeholder stands for the rest. -/
def itemAt (c : UIComboBox) (i : Int) : UIComboBoxItem :=
  c._items.getD i.toNat { text := "", value := 0 }

/-- `UIComboBox::addItem`. -/
def addItem (c : UIComboBox) (text : String) (value : Int) : UIComboBox :=
  let c1 := { c with _items := c._items ++ [{ text := text, value := value }] }
  let c2 := if c1._selectedIndex = -1 ∧ ¬ c1._items.isEmpty then
      { c1 with _selectedIndex := 0 } else c1
  setDirty c2 true

/-- `UIComboBox::getSelectedIndex`. -/
def getSelectedIndex (c : UIComboBox) : Int :=
  c._selectedIndex

/-- `UIComboBox::getSelectedValue`. -/
def getSelectedValue (c : UIComboBox) : Int :=
  if c._selectedIndex ≥ 0 ∧ c._selectedIndex < c._items.length then
    (c.itemAt c._selectedIndex).value
  else -1

/-- `UIComboBox::getSelectedText`. -/
def getSelectedText (c : UIComboBox) : String :=
  if c._selectedIndex ≥ 0 ∧ c._selectedIndex < c._items.length then
    (c.itemAt c._selectedIndex).text
  else "No selection"

/-- `UIComboBox::setSelectedIndex`. -/
def setSelectedIndex (c : UIComboBox) (index : Int) : UIComboBox × List CallbackEvent :=
  if index ≥ 0 ∧ index < c._items.length then
    if c._selectedIndex ≠ index then
      let c1 := { c with _selectedIndex := index }
      let c2 :=
        if c1._selectedIndex < c1._scrollOffset then
          { c1 with _scrollOffset := c1._selectedIndex }
        else if c1._selectedIndex ≥ c1._scrollOffset + c1._maxVisibleItems then
          { c1 with _scrollOffset := c1._selectedIndex - c1._maxVisibleItems + 1 }
        else c1
      let calls :=
        if c2._onSelectCallback then
          [CallbackEvent.onSelect c2._selectedIndex c2.getSelectedValue]
        else []
      (setDirty c2 true, calls)
    else (c, [])
  else (c, [])

/-- `UIComboBox::setOnSelect`; the argument tells whether the callback given is a
callable one. -/
def setOnSelect (c : UIComboBox) (callback : Bool) : UIComboBox :=
  { c with _onSelectCallback := callback }

/-- `UIComboBox::setOnCollapse`; the argument tells whether the callback given is a
callable one. -/
def setOnCollapse (c : UIComboBox) (callback : Bool) : UIComboBox :=
  { c with _onCollapseCallback := callback }

/-- `UIComboBox::updateHeight`. -/
def updateHeight (c : UIComboBox) : UIComboBox :=
  if c._isExpanded then
    let visibleItemsCount := min (c._items.length : Int) c._maxVisibleItems
    { c with rect := { c.rect with h := c._collapsedHeight + visibleItemsCount * c._style.itemHeight } }
  else
    { c with rect := { c.rect with h := c._collapsedHeight } }

/-- `UIComboBox::isExpanded`. -/
def isExpanded (c : UIComboBox) : Bool :=
  c._isExpanded

/-- `UIComboBox::collapse`. -/
def collapse (c : UIComboBox) : UIComboBox × List CallbackEvent :=
  if c._isExpanded then
    let dropdownListRect : UIRect :=
      { x := c.rect.x
        y := c.rect.y + c._collapsedHeight
        w := c.rect.w
        h := min (c._items.length : Int) c._maxVisibleItems * c._style.itemHeight }
    let c1 := { c with _isExpanded := false }
    let c2 := setDirty (updateHeight c1) true
    (c2, if c2._onCollapseCallback then [CallbackEvent.onCollapse dropdownListRect] else [])
  else (c, [])

/-- The condition `inHeader` of `handlePress`. -/
def inHeader (c : UIComboBox) (tx ty : Int) : Prop :=
  tx ≥ c.rect.x ∧ tx ≤ c.rect.x + c.rect.w ∧ ty ≥ c.rect.y ∧ ty ≤ c.rect.y + c._collapsedHeight

instance (c : UIComboBox) (tx ty : Int) : Decidable (c.inHeader tx ty) := by
  unfold inHeader; infer_instance

/-- The scroll-bar condition of `handlePress`: a scroll bar is showing and the point is
inside its rectangle. -/
def inScrollBar (c : UIComboBox) (tx ty : Int) : Prop :=
  let listTopY := c.rect.y + c._collapsedHeight
  let visibleListHeight := min (c._items.length : Int) c._maxVisibleItems * c._style.itemHeight
  let scrollBarX := c.rect.x + c.rect.w - c._scrollBarWidth
  (c._items.length : Int) > toSizeT c._maxVisibleItems ∧ tx ≥ scrollBarX ∧ tx ≤ c.rect.x + c.rect.w ∧
    ty ≥ listTopY ∧ ty ≤ listTopY + visibleListHeight

instance (c : UIComboBox) (tx ty : Int) : Decidable (c.inScrollBar tx ty) := by
  unfold inScrollBar; infer_instance

/-- The body of the scroll-bar branch of `handlePress`: the new `_scrollOffset`. -/
def scrollOffsetFromClick (fl : ClickScroll) (c : UIComboBox) (ty : Int) : Int :=
  let listTopY := c.rect.y + c._collapsedHeight
  let visibleListHeight := min (c._items.length : Int) c._maxVisibleItems * c._style.itemHeight
  let maxScrollOffset0 : Int := (c._items.length : Int) - c._maxVisibleItems
  let maxScrollOffset := if maxScrollOffset0 < 0 then 0 else maxScrollOffset0
  let s1 := fl maxScrollOffset (ty - listTopY) visibleListHeight
  let s2 := max 0 (min maxScrollOffset s1)
  let s3 := if ty ≥ listTopY + visibleListHeight - Int.tdiv c._style.itemHeight 2 then
      maxScrollOffset else s2
  let s4 := if s3 < 0 then 0 else s3
  if s4 > maxScrollOffset then maxScrollOffset else s4

/-- The hit test of row slot `i` in the row loop of `handlePress`. -/
def inRow (c : UIComboBox) (tx ty : Int) (i : Int) : Prop :=
  let listTopY := c.rect.y + c._collapsedHeight
  let itemY := listTopY + i * c._style.itemHeight
  tx ≥ c.rect.x ∧
    tx ≤ c.rect.x + c.rect.w -
      (if (c._items.length : Int) > toSizeT c._maxVisibleItems then c._scrollBarWidth else 0) ∧
    ty ≥ itemY ∧ ty ≤ itemY + c._style.itemHeight

instance (c : UIComboBox) (tx ty : Int) (i : Int) : Decidable (c.inRow tx ty i) := by
  unfold inRow; infer_instance

/-- The row loop of `handlePress`, started at slot `i` with `fuel` iterations left:
the item index of the first row hit, if the loop reaches a `return`.  The loop runs
`i = 0, 1, ...` while `i < _maxVisibleItems`, so `_maxVisibleItems.toNat` is enough fuel. -/
def rowLoop (c : UIComboBox) (tx ty : Int) : Nat → Int → Option Int
  | 0, _ => none
  | fuel + 1, i =>
    if i < c._maxVisibleItems then
      let itemIndex := c._scrollOffset + i
      if itemIndex ≥ (c._items.length : Int) then none
      else if c.inRow tx ty i then some itemIndex
      else rowLoop c tx ty fuel (i + 1)
    else none

/-- `UIComboBox::handlePress`. -/
def handlePress (fl : ClickScroll) (c : UIComboBox) (tx ty : Int) :
    UIComboBox × List CallbackEvent :=
  if ¬ c.enabled then (c, [])
  else if c.inHeader tx ty then
    if c._isExpanded then c.collapse
    else
      let c1 := { c with _isExpanded := true, _scrollOffset := 0 }
      (setDirty (updateHeight c1) true, [])
  else if c._isExpanded then
    if c.inScrollBar tx ty then
      (setDirty { c with _scrollOffset := scrollOffsetFromClick fl c ty } true, [])
    else
      match rowLoop c tx ty c._maxVisibleItems.toNat 0 with
      | some itemIndex =>
        let r1 := c.setSelectedIndex itemIndex
        let r2 := r1.1.collapse
        (r2.1, r1.2 ++ r2.2)
      | none => c.collapse
  else (c, [])

/-- A call of one of the public mutating methods, with its arguments. -/
inductive Op where
  | addItem (text : String) (value : Int)
  | setSelectedIndex (index : Int)
  | setOnSelect (callback : Bool)
  | setOnCollapse (callback : Bool)
  | handlePress (tx : Int) (ty : Int)
  | collapse
deriving DecidableEq, Repr

/-- The effect of one call. -/
def step (fl : ClickScroll) (c : UIComboBox) : Op → UIComboBox × List CallbackEvent
  | Op.addItem text value => (c.addItem text value, [])
  | Op.setSelectedIndex index => c.setSelectedIndex index
  | Op.setOnSelect callback => (c.setOnSelect callback, [])
  | Op.setOnCollapse callback => (c.setOnCollapse callback, [])
  | Op.handlePress tx ty => c.handlePress fl tx ty
  | Op.collapse => c.collapse

/-- The effect of a sequence of calls, first call first. -/
def run (fl : ClickScroll) (c : UIComboBox) : List Op → UIComboBox × List CallbackEvent
  | [] => (c, [])
  | op :: ops =>
    let r1 := step fl c op
    let r2 := run fl r1.1 ops
    (r2.1, r1.2 ++ r2.2)

/-- The scroll offset lies in `[0, max(0, items.length - maxVisibleItems)]`. -/
def ScrollInBounds (c : UIComboBox) : Prop :=
  0 ≤ c._scrollOffset ∧ c._scrollOffset ≤ max 0 ((c._items.length : Int) - c._maxVisibleItems)

/-- The selected index lies in the visible window
`[scrollOffset, scrollOffset + maxVisibleItems)`. -/
def SelectedVisible (c : UIComboBox) : Prop :=
  c._scrollOffset ≤ c._selectedIndex ∧ c._selectedIndex < c._scrollOffset + c._maxVisibleItems

instance (c : UIComboBox) : Decidable c.SelectedVisible := by
  unfold SelectedVisible; infer_instance

/-- The selected index lies in `[-1, items.length - 1]` and is `-1` exactly when there
is no item. -/
def SelectionInRange (c : UIComboBox) : Prop :=
  -1 ≤ c._selectedIndex ∧ c._selectedIndex ≤ (c._items.length : Int) - 1 ∧
    (c._selectedIndex = -1 ↔ c._items = [])

/-- The members that no method assigns after construction. -/
def SameConfig (c d : UIComboBox) : Prop :=
  d._style = c._style ∧ d._collapsedHeight = c._collapsedHeight ∧
    d._maxVisibleItems = c._maxVisibleItems ∧ d._scrollBarWidth = c._scrollBarWidth ∧
    d.enabled = c.enabled ∧ d.rect.x = c.rect.x ∧ d.rect.y = c.rect.y ∧ d.rect.w = c.rect.w

/-- The calls adding the texts "a" to "e" with the values 0 to 4. -/
def addFive : List Op :=
  [Op.addItem "a" 0, Op.addItem "b" 1, Op.addItem "c" 2, Op.addItem "d" 3, Op.addItem "e" 4]

/-- An enabled widget at the origin, 100 wide and 20 high, with the default style
(`maxVisibleItems = 3`, `itemHeight = 30`), holding the five items of `addFive`. -/
def fiveItemWidget : UIComboBox :=
  (run exactClickScroll (construct { x := 0, y := 0, w := 100, h := 20 } {} true false) addFive).1


/-- The five-item widget with both callbacks registered, after a press at (5, 5) on its
header: expanded, `scrollOffset = 0`, index 0 selected, list from y = 20 to y = 110,
scroll bar from x = 90 to x = 100. -/
def expandedFiveWidget : UIComboBox :=
  (run exactClickScroll fiveItemWidget
    [Op.setOnSelect true, Op.setOnCollapse true, Op.handlePress 5 5]).1


/-! ## Drawing the scroll bar -/

/-- A call of a drawing primitive with its geometry (the colour is left out). -/
inductive DrawCall where
  | fillRect (x y w h : Int)
  | drawRect (x y w h : Int)
deriving DecidableEq, Repr

/-- The local `thumbHeight` of `drawScrollBar`. -/
def thumbHeight (c : UIComboBox) : Int :=
  let visibleListHeight := min (c._items.length : Int) c._maxVisibleItems * c._style.itemHeight
  let itemsRatio := F32.div (F32.ofInt c._maxVisibleItems) (F32.ofInt c._items.length)
  let thumbHeight := (F32.mul (F32.ofInt visibleListHeight) itemsRatio).toInt
  if thumbHeight < 10 then 10 else thumbHeight

/-- The local `scrollRatio` of `drawScrollBar`. -/
def scrollRatio (c : UIComboBox) : F32 :=
  let maxScrollOffset : Int := (c._items.length : Int) - c._maxVisibleItems
  if maxScrollOffset ≤ 0 then F32.ofInt 0
  else
    let scrollRatio := F32.div (F32.ofInt c._scrollOffset) (F32.ofInt maxScrollOffset)
    if F32.lt (F32.ofInt 1) scrollRatio then F32.ofInt 1 else scrollRatio

/-- The local `thumbY` of `drawScrollBar`. -/
def thumbY (c : UIComboBox) : Int :=
  let listTopY := c.rect.y + c._collapsedHeight
  let visibleListHeight := min (c._items.length : Int) c._maxVisibleItems * c._style.itemHeight
  let maxScrollOffset : Int := (c._items.length : Int) - c._maxVisibleItems
  if maxScrollOffset ≤ 0 then listTopY
  else
    let thumbY :=
      listTopY + (F32.mul (F32.ofInt (visibleListHeight - c.thumbHeight)) c.scrollRatio).toInt
    if c._scrollOffset = maxScrollOffset then listTopY + visibleListHeight - c.thumbHeight
    else thumbY

/-- `UIComboBox::drawScrollBar`: the three primitives drawn, in order. -/
def drawScrollBar (c : UIComboBox) : List DrawCall :=
  let listTopY := c.rect.y + c._collapsedHeight
  let visibleListHeight := min (c._items.length : Int) c._maxVisibleItems * c._style.itemHeight
  let scrollBarX := c.rect.x + c.rect.w - c._scrollBarWidth
  [DrawCall.fillRect scrollBarX listTopY c._scrollBarWidth visibleListHeight,
    DrawCall.drawRect scrollBarX listTopY c._scrollBarWidth visibleListHeight,
    DrawCall.fillRect (scrollBarX + 1) (c.thumbY + 1) (c._scrollBarWidth - 2) (c.thumbHeight - 2)]

/-- The part of `UIComboBox::drawInternal` that draws the scroll bar: the call of
`drawScrollBar` and the two conditions it stands under. -/
def drawInternalScrollBar (c : UIComboBox) : List DrawCall :=
  if c._isExpanded then
    if (c._items.length : Int) > toSizeT c._maxVisibleItems then c.drawScrollBar else []
  else []

/-- The divisors of the divisions `drawScrollBar` evaluates, in order: `_items.size()` in
`itemsRatio`, and `maxScrollOffset` in `scrollRatio` unless `maxScrollOffset <= 0`. -/
def drawScrollBarDivisors (c : UIComboBox) : List Int :=
  let maxScrollOffset : Int := (c._items.length : Int) - c._maxVisibleItems
  [(c._items.length : Int)] ++ (if maxScrollOffset ≤ 0 then [] else [maxScrollOffset])

/-- The divisors of the divisions by a variable that `drawInternal` evaluates: those of
`drawScrollBar`, under the two conditions of its call. -/
def drawInternalDivisors (c : UIComboBox) : List Int :=
  if c._isExpanded then
    if (c._items.length : Int) > toSizeT c._maxVisibleItems then c.drawScrollBarDivisors else []
  else []

/-- The divisors of the divisions by a variable that `handlePress` evaluates:
`visibleListHeight` in `clickRatio`, in the scroll-bar branch only. -/
def handlePressDivisors (c : UIComboBox) (tx ty : Int) : List Int :=
  if ¬ c.enabled then []
  else if c.inHeader tx ty then []
  else if c._isExpanded then
    if c.inScrollBar tx ty then
      [min (c._items.length : Int) c._maxVisibleItems * c._style.itemHeight]
    else []
  else []

/-- The thumb position as the specification words it:
`listTop + round((visibleListHeight - thumbHeight) * scrollRatio)` with
`scrollRatio = scrollOffset / maxScrollOffset` clamped to at most 1, in exact arithmetic
and rounding to the nearest integer. -/
def specThumbY (c : UIComboBox) : Int :=
  let listTopY := c.rect.y + c._collapsedHeight
  let visibleListHeight := min (c._items.length : Int) c._maxVisibleItems * c._style.itemHeight
  let maxScrollOffset : Int := (c._items.length : Int) - c._maxVisibleItems
  let scrollRatio : ℚ := min ((c._scrollOffset : ℚ) / (maxScrollOffset : ℚ)) 1
  listTopY + round (((visibleListHeight - c.thumbHeight : Int) : ℚ) * scrollRatio)

/-- The widget reached from a fresh one by adding one item, expanding it by a press on
the header and adding a second item: expanded, two items, `maxVisibleItems = 3`. -/
def twoItemExpandedWidget : UIComboBox :=
  (run exactClickScroll (construct { x := 0, y := 0, w := 100, h := 20 } {} true false)
    [Op.addItem "a" 0, Op.handlePress 5 5, Op.addItem "b" 1]).1

/-- The widget reached from a fresh one by adding eight items, expanding it by a press on
the header and selecting index 4: expanded, `maxVisibleItems = 3`, `scrollOffset = 2`. -/
def eightItemWidget : UIComboBox :=
  (run exactClickScroll (construct { x := 0, y := 0, w := 100, h := 20 } {} true false)
    (addFive ++ [Op.addItem "f" 5, Op.addItem "g" 6, Op.addItem "h" 7, Op.handlePress 5 5,
      Op.setSelectedIndex 4])).1

/-- The widget reached from a fresh one with `maxVisibleItems = 1` and `itemHeight = 5` by
adding two items and expanding it by a press on the header: expanded, the list from
y = 20 to y = 25, `scrollOffset = 0`, `maxScrollOffset = 1`. -/
def shortTrackWidget : UIComboBox :=
  (run exactClickScroll
    (construct { x := 0, y := 0, w := 100, h := 20 } { itemHeight := 5, maxVisibleItems := 1 }
      true false)
    [Op.addItem "a" 0, Op.addItem "b" 1, Op.handlePress 5 5]).1

/-- The widget reached from a fresh one with `maxVisibleItems = -1` and `itemHeight = -30`
by adding two items and expanding it by a press on the header: expanded, height 50,
`scrollOffset = 0`. -/
def negativeStyleWidget : UIComboBox :=
  (run exactClickScroll
    (construct { x := 0, y := 0, w := 100, h := 20 } { itemHeight := -30, maxVisibleItems := -1 }
      true false)
    [Op.addItem "a" 0, Op.addItem "b" 1, Op.handlePress 5 5]).1

/-- The height is the derived value: `collapsedHeight` when collapsed,
`collapsedHeight + min(items.length, maxVisibleItems) * itemHeight` when expanded. -/
def HeightDerived (c : UIComboBox) : Prop :=
  c.rect.h =
    if c._isExpanded then
      c._collapsedHeight + min (c._items.length : Int) c._maxVisibleItems * c._style.itemHeight
    else c._collapsedHeight

instance (c : UIComboBox) : Decidable c.HeightDerived := by
  unfold HeightDerived; infer_instance


/-! ## Members fixed at construction -/

theorem SameConfig.refl (c : UIComboBox) : SameConfig c c :=
  ⟨rfl, rfl, rfl, rfl, rfl, rfl, rfl, rfl⟩

theorem SameConfig.trans {c d e : UIComboBox} (h1 : SameConfig c d) (h2 : SameConfig d e) :
    SameConfig c e := by
  unfold SameConfig at *
  obtain ⟨a1, a2, a3, a4, a5, a6, a7, a8⟩ := h1
  obtain ⟨b1, b2, b3, b4, b5, b6, b7, b8⟩ := h2
  exact ⟨b1.trans a1, b2.trans a2, b3.trans a3, b4.trans a4, b5.trans a5, b6.trans a6,
    b7.trans a7, b8.trans a8⟩

theorem addItem_sameConfig (c : UIComboBox) (text : String) (value : Int) :
    SameConfig c (c.addItem text value) := by
  unfold SameConfig addItem setDirty
  dsimp only
  split <;> simp

theorem setSelectedIndex_sameConfig (c : UIComboBox) (index : Int) :
    SameConfig c (c.setSelectedIndex index).1 := by
  unfold SameConfig setSelectedIndex setDirty
  dsimp only
  split_ifs <;> simp

theorem collapse_sameConfig (c : UIComboBox) : SameConfig c c.collapse.1 := by
  unfold SameConfig collapse setDirty updateHeight
  dsimp only
  split_ifs <;> simp

theorem handlePress_sameConfig (fl : ClickScroll) (c : UIComboBox) (tx ty : Int) :
    SameConfig c (c.handlePress fl tx ty).1 := by
  unfold handlePress
  split_ifs
  · exact collapse_sameConfig c
  · unfold SameConfig setDirty updateHeight
    dsimp only
    split_ifs <;> simp
  · unfold SameConfig setDirty
    simp
  · split
    · exact (setSelectedIndex_sameConfig c _).trans (collapse_sameConfig _)
    · exact collapse_sameConfig c
  · exact SameConfig.refl c
  · exact SameConfig.refl c

theorem step_sameConfig (fl : ClickScroll) (c : UIComboBox) (op : Op) :
    SameConfig c (step fl c op).1 := by
  cases op with
  | addItem text value => exact addItem_sameConfig c text value
  | setSelectedIndex index => exact setSelectedIndex_sameConfig c index
  | setOnSelect callback => exact SameConfig.refl c
  | setOnCollapse callback => exact SameConfig.refl c
  | handlePress tx ty => exact handlePress_sameConfig fl c tx ty
  | collapse => exact collapse_sameConfig c

theorem run_sameConfig (fl : ClickScroll) (ops : List Op) :
    ∀ c : UIComboBox, SameConfig c (run fl c ops).1 := by
  induction ops with
  | nil => intro c; exact SameConfig.refl c
  | cons op ops ih => intro c; exact (step_sameConfig fl c op).trans (ih _)

/-! ## The scroll offset stays in bounds -/

theorem construct_scrollInBounds (rect : UIRect) (style : UIComboBoxStyle) (enabled dirty : Bool) :
    (construct rect style enabled dirty).ScrollInBounds := by
  unfold ScrollInBounds construct
  dsimp only
  omega

theorem addItem_scrollInBounds (c : UIComboBox) (text : String) (value : Int)
    (h : c.ScrollInBounds) : (c.addItem text value).ScrollInBounds := by
  unfold ScrollInBounds at *
  unfold addItem setDirty
  dsimp only
  split <;> simp only [List.length_append, List.length_singleton, Nat.cast_add, Nat.cast_one] <;>
    omega

theorem setSelectedIndex_scrollInBounds (c : UIComboBox) (index : Int)
    (h : c.ScrollInBounds) : (c.setSelectedIndex index).1.ScrollInBounds := by
  unfold ScrollInBounds at *
  unfold setSelectedIndex setDirty
  dsimp only
  split_ifs <;> dsimp only <;> omega

theorem collapse_scrollInBounds (c : UIComboBox) (h : c.ScrollInBounds) :
    c.collapse.1.ScrollInBounds := by
  unfold ScrollInBounds at *
  unfold collapse setDirty updateHeight
  dsimp only
  split_ifs <;> dsimp only <;> omega

theorem scrollOffsetFromClick_bounds (fl : ClickScroll) (c : UIComboBox) (ty : Int) :
    0 ≤ scrollOffsetFromClick fl c ty ∧
      scrollOffsetFromClick fl c ty ≤ max 0 ((c._items.length : Int) - c._maxVisibleItems) := by
  unfold scrollOffsetFromClick
  dsimp only
  split_ifs <;> omega

theorem handlePress_scrollInBounds (fl : ClickScroll) (c : UIComboBox) (tx ty : Int)
    (h : c.ScrollInBounds) : (c.handlePress fl tx ty).1.ScrollInBounds := by
  unfold handlePress
  split_ifs
  · exact collapse_scrollInBounds c h
  · unfold ScrollInBounds setDirty updateHeight
    dsimp only
    split_ifs <;> dsimp only <;> omega
  · exact scrollOffsetFromClick_bounds fl c ty
  · split
    · exact collapse_scrollInBounds _ (setSelectedIndex_scrollInBounds c _ h)
    · exact collapse_scrollInBounds c h
  · exact h
  · exact h

theorem step_scrollInBounds (fl : ClickScroll) (c : UIComboBox) (op : Op)
    (h : c.ScrollInBounds) : (step fl c op).1.ScrollInBounds := by
  cases op with
  | addItem text value => exact addItem_scrollInBounds c text value h
  | setSelectedIndex index => exact setSelectedIndex_scrollInBounds c index h
  | setOnSelect callback => exact h
  | setOnCollapse callback => exact h
  | handlePress tx ty => exact handlePress_scrollInBounds fl c tx ty h
  | collapse => exact collapse_scrollInBounds c h

theorem run_scrollInBounds (fl : ClickScroll) (ops : List Op) :
    ∀ c : UIComboBox, c.ScrollInBounds → (run fl c ops).1.ScrollInBounds := by
  induction ops with
  | nil => intro c h; exact h
  | cons op ops ih => intro c h; exact ih _ (step_scrollInBounds fl c op h)

/-- C1: in every state reached from a freshly constructed widget by a sequence of
`addItem`, `setSelectedIndex`, `handlePress` (any coordinates) and `collapse` calls (and
callback registrations), `0 ≤ scrollOffset ≤ max(0, items.length - maxVisibleItems)`,
where `maxVisibleItems` is the value configured in the style.  This holds for every
configured `maxVisibleItems`, in particular for every value `≥ 1`, and whatever the
floating-point click computation returns. -/
theorem scrollOffset_bound_invariant (fl : ClickScroll) (rect : UIRect)
    (style : UIComboBoxStyle) (enabled dirty : Bool) (ops : List Op) :
    0 ≤ (run fl (construct rect style enabled dirty) ops).1._scrollOffset ∧
      (run fl (construct rect style enabled dirty) ops).1._scrollOffset ≤
        max 0 (((run fl (construct rect style enabled dirty) ops).1._items.length : Int) -
          style.maxVisibleItems) := by
  have h := run_scrollInBounds fl ops _ (construct_scrollInBounds rect style enabled dirty)
  have hc := (run_sameConfig fl ops (construct rect style enabled dirty)).2.2.1
  unfold ScrollInBounds at h
  rw [hc] at h
  exact h


/-! ## `setSelectedIndex` -/

theorem setSelectedIndex_of_valid (c : UIComboBox) (index : Int)
    (h0 : 0 ≤ index) (h1 : index < c._items.length) (h2 : index ≠ c._selectedIndex) :
    c.setSelectedIndex index =
      (setDirty { c with
          _selectedIndex := index
          _scrollOffset :=
            if index < c._scrollOffset then index
            else if index ≥ c._scrollOffset + c._maxVisibleItems then
              index - c._maxVisibleItems + 1
            else c._scrollOffset } true,
        if c._onSelectCallback then [CallbackEvent.onSelect index (c.itemAt index).value]
        else []) := by
  unfold setSelectedIndex
  rw [if_pos ⟨h0, h1⟩, if_pos (Ne.symm h2)]
  unfold setDirty getSelectedValue itemAt
  dsimp only
  split_ifs <;> (try dsimp only at *) <;> first | rfl | omega

theorem setSelectedIndex_of_invalid (c : UIComboBox) (index : Int)
    (h : index < 0 ∨ index ≥ c._items.length) : c.setSelectedIndex index = (c, []) := by
  unfold setSelectedIndex
  rw [if_neg (by omega)]

theorem setSelectedIndex_of_same (c : UIComboBox) :
    c.setSelectedIndex c._selectedIndex = (c, []) := by
  unfold setSelectedIndex
  split_ifs <;> first | rfl | contradiction

theorem itemAt_eq (c : UIComboBox) (index : Int) (h0 : 0 ≤ index)
    (h1 : index < c._items.length) :
    c._items[index.toNat]? = some (c.itemAt index) := by
  have hlt : index.toNat < c._items.length := by omega
  unfold itemAt
  rw [List.getD_eq_getElem?_getD, List.getElem?_eq_getElem hlt]
  rfl


/-- C2, counterexample: on the widget with five items and `maxVisibleItems = 3`,
`setSelectedIndex(4)` scrolls to offset 2, a press on the header expands the list and
resets the offset to 0, and a further `setSelectedIndex(4)` is a no-op because index 4
is already selected; after that call `selectedIndex = 4` is not below
`scrollOffset + maxVisibleItems = 3`. -/
theorem setSelectedIndex_selected_outside_window :
    (run exactClickScroll (construct { x := 0, y := 0, w := 100, h := 20 } {} true false)
        (addFive ++ [Op.setSelectedIndex 4, Op.handlePress 5 5, Op.setSelectedIndex 4])).1._selectedIndex = 4 ∧
    (run exactClickScroll (construct { x := 0, y := 0, w := 100, h := 20 } {} true false)
        (addFive ++ [Op.setSelectedIndex 4, Op.handlePress 5 5, Op.setSelectedIndex 4])).1._scrollOffset = 0 ∧
    (run exactClickScroll (construct { x := 0, y := 0, w := 100, h := 20 } {} true false)
        (addFive ++ [Op.setSelectedIndex 4, Op.handlePress 5 5, Op.setSelectedIndex 4])).1._maxVisibleItems = 3 ∧
    ¬ (run exactClickScroll (construct { x := 0, y := 0, w := 100, h := 20 } {} true false)
        (addFive ++ [Op.setSelectedIndex 4, Op.handlePress 5 5, Op.setSelectedIndex 4])).1.SelectedVisible := by
  decide

/-- C2, amended: for every state with `maxVisibleItems ≥ 1` and every integer index, the
state after `setSelectedIndex(index)` satisfies
`scrollOffset ≤ selectedIndex < scrollOffset + maxVisibleItems` exactly when the call
changed the selection (`0 ≤ index < items.length` and `index ≠ selectedIndex`) or the
property already held before the call. -/
theorem setSelectedIndex_selectedVisible_iff (c : UIComboBox) (index : Int)
    (hm : 1 ≤ c._maxVisibleItems) :
    (c.setSelectedIndex index).1.SelectedVisible ↔
      ((0 ≤ index ∧ index < c._items.length ∧ index ≠ c._selectedIndex) ∨ c.SelectedVisible) := by
  by_cases hv : 0 ≤ index ∧ index < c._items.length
  · by_cases hs : index = c._selectedIndex
    · rw [hs, setSelectedIndex_of_same]
      constructor
      · intro h; exact Or.inr h
      · rintro (h | h)
        · exact absurd rfl h.2.2
        · exact h
    · rw [setSelectedIndex_of_valid c index hv.1 hv.2 hs]
      constructor
      · intro _; exact Or.inl ⟨hv.1, hv.2, hs⟩
      · intro _
        unfold SelectedVisible setDirty
        dsimp only
        split_ifs <;> omega
  · rw [setSelectedIndex_of_invalid c index (by omega)]
    constructor
    · intro h; exact Or.inr h
    · rintro (h | h)
      · exact absurd ⟨h.1, h.2.1⟩ hv
      · exact h

/-- Witness of C2 (amended): on the five-item widget (`maxVisibleItems = 3`, index 0
selected) `setSelectedIndex(4)` changes the selection, and index 4 is visible after it. -/
theorem setSelectedIndex_selectedVisible_iff_witness :
    1 ≤ fiveItemWidget._maxVisibleItems ∧ (fiveItemWidget.setSelectedIndex 4).1.SelectedVisible :=
  ⟨by decide,
    (setSelectedIndex_selectedVisible_iff fiveItemWidget 4 (by decide)).2 (Or.inl (by decide))⟩

/-- C4: for every state and every index with `index < 0` or `index ≥ items.length`,
`setSelectedIndex(index)` returns the widget unchanged (items, selection, scroll offset,
expansion, height, dirty flag and every other member) and invokes no callback. -/
theorem setSelectedIndex_out_of_range_ignored (c : UIComboBox) (index : Int)
    (h : index < 0 ∨ index ≥ c._items.length) :
    c.setSelectedIndex index = (c, []) :=
  setSelectedIndex_of_invalid c index h

/-- Witness of C4: on the five-item widget the indices 5 and -1 are ignored. -/
theorem setSelectedIndex_out_of_range_ignored_witness :
    ((5 : Int) < 0 ∨ (5 : Int) ≥ fiveItemWidget._items.length) ∧
      fiveItemWidget.setSelectedIndex 5 = (fiveItemWidget, []) :=
  ⟨by decide, setSelectedIndex_out_of_range_ignored fiveItemWidget 5 (by decide)⟩

/-- C5: for every state and every index (valid or not), a second `setSelectedIndex(index)`
right after the first returns the state of the first call and invokes no callback, so the
two calls together invoke the select callback at most once; the second call does not
mark the widget dirty, also when the dirty flag was cleared in between. -/
theorem setSelectedIndex_idempotent (c : UIComboBox) (index : Int) :
    ((c.setSelectedIndex index).1.setSelectedIndex index).1 = (c.setSelectedIndex index).1 ∧
      ((c.setSelectedIndex index).1.setSelectedIndex index).2 = [] ∧
      ((c.setSelectedIndex index).2 ++
        ((c.setSelectedIndex index).1.setSelectedIndex index).2).length ≤ 1 ∧
      (setDirty (c.setSelectedIndex index).1 false).setSelectedIndex index =
        (setDirty (c.setSelectedIndex index).1 false, []) := by
  by_cases hv : 0 ≤ index ∧ index < c._items.length
  · by_cases hs : index = c._selectedIndex
    · subst hs
      simp only [setSelectedIndex_of_same]
      refine ⟨trivial, trivial, by simp, ?_⟩
      exact setSelectedIndex_of_same (setDirty c false)
    · have key : ∀ d : UIComboBox, d._selectedIndex = index →
          d.setSelectedIndex index = (d, []) := by
        intro d hd
        rw [← hd]
        exact setSelectedIndex_of_same d
      rw [setSelectedIndex_of_valid c index hv.1 hv.2 hs]
      dsimp only
      rw [key _ rfl]
      refine ⟨rfl, rfl, ?_, key _ rfl⟩
      split_ifs <;> simp
  · have hi := setSelectedIndex_of_invalid c index (by omega)
    rw [hi]
    dsimp only
    rw [hi]
    refine ⟨rfl, rfl, by simp, ?_⟩
    exact setSelectedIndex_of_invalid (setDirty c false) index (by
      unfold setDirty; dsimp only; omega)

/-- C9: for every state and every valid index different from the current selection,
`setSelectedIndex(index)` invokes a registered select callback exactly once, with the
arguments `(index, items[index].value)`; with no callback registered nothing is invoked;
the new state is the same in both cases (up to the registration itself). -/
theorem setSelectedIndex_callback_arguments (c : UIComboBox) (index : Int)
    (h0 : 0 ≤ index) (h1 : index < c._items.length) (h2 : index ≠ c._selectedIndex) :
    ∃ item, c._items[index.toNat]? = some item ∧
      (c._onSelectCallback = true →
        (c.setSelectedIndex index).2 = [CallbackEvent.onSelect index item.value]) ∧
      (c._onSelectCallback = false → (c.setSelectedIndex index).2 = []) ∧
      (c.setSelectedIndex index).1 =
        setDirty { c with
          _selectedIndex := index
          _scrollOffset :=
            if index < c._scrollOffset then index
            else if index ≥ c._scrollOffset + c._maxVisibleItems then
              index - c._maxVisibleItems + 1
            else c._scrollOffset } true ∧
      ((c.setOnSelect false).setSelectedIndex index).1 =
        ((c.setOnSelect true).setSelectedIndex index).1.setOnSelect false := by
  refine ⟨c.itemAt index, itemAt_eq c index h0 h1, ?_, ?_, ?_, ?_⟩
  · intro hr
    rw [setSelectedIndex_of_valid c index h0 h1 h2, hr]
    rfl
  · intro hr
    rw [setSelectedIndex_of_valid c index h0 h1 h2, hr]
    rfl
  · rw [setSelectedIndex_of_valid c index h0 h1 h2]
  · rw [setSelectedIndex_of_valid (c.setOnSelect false) index h0 h1 h2,
      setSelectedIndex_of_valid (c.setOnSelect true) index h0 h1 h2]
    rfl

/-- Witness of C9: on the five-item widget with a select callback registered,
`setSelectedIndex(4)` invokes the callback once with `(4, 4)`, the value of item "e". -/
theorem setSelectedIndex_callback_arguments_witness :
    (0 ≤ (4 : Int) ∧ (4 : Int) < (fiveItemWidget.setOnSelect true)._items.length ∧
        (4 : Int) ≠ (fiveItemWidget.setOnSelect true)._selectedIndex) ∧
      ∃ item, (fiveItemWidget.setOnSelect true)._items[(4 : Int).toNat]? = some item ∧
        ((fiveItemWidget.setOnSelect true).setSelectedIndex 4).2 =
          [CallbackEvent.onSelect 4 item.value] :=
  ⟨by decide,
    (setSelectedIndex_callback_arguments (fiveItemWidget.setOnSelect true) 4 (by decide)
      (by decide) (by decide)).imp fun _ h => ⟨h.1, h.2.1 rfl⟩⟩


/-! ## `addItem` and the selection range -/

theorem addItem_items (c : UIComboBox) (text : String) (value : Int) :
    (c.addItem text value)._items = c._items ++ [{ text := text, value := value }] := by
  unfold addItem setDirty
  dsimp only
  split <;> rfl

theorem addItem_selectedIndex (c : UIComboBox) (text : String) (value : Int) :
    (c.addItem text value)._selectedIndex = if c._selectedIndex = -1 then 0 else c._selectedIndex := by
  unfold addItem setDirty
  dsimp only
  by_cases h : c._selectedIndex = -1
  · rw [if_pos ⟨h, by simp⟩, if_pos h]
  · rw [if_neg (fun hh => h hh.1), if_neg h]

theorem foldl_addItem_selectedIndex (l : List (String × Int)) :
    ∀ c : UIComboBox, c._selectedIndex = 0 →
      (l.foldl (fun w p => w.addItem p.1 p.2) c)._selectedIndex = 0 := by
  induction l with
  | nil => intro c h; exact h
  | cons p l ih =>
    intro c h
    apply ih
    rw [addItem_selectedIndex, h]
    rfl

/-- C6: for every state, `addItem(text, value)` appends the item with that text and value
as the last of `items`, leaving the earlier items and their order unchanged, sets
`selectedIndex` to 0 if it was -1 and otherwise leaves it unchanged; hence after any
non-empty sequence of `addItem` calls on a freshly constructed widget
`getSelectedIndex() = 0`. -/
theorem addItem_appends_and_selects_once (c : UIComboBox) (text : String) (value : Int)
    (rect : UIRect) (style : UIComboBoxStyle) (enabled dirty : Bool)
    (l : List (String × Int)) (hl : l ≠ []) :
    (c.addItem text value)._items = c._items ++ [{ text := text, value := value }] ∧
      (c._selectedIndex = -1 → (c.addItem text value)._selectedIndex = 0) ∧
      (c._selectedIndex ≠ -1 → (c.addItem text value)._selectedIndex = c._selectedIndex) ∧
      (l.foldl (fun w p => w.addItem p.1 p.2)
        (construct rect style enabled dirty)).getSelectedIndex = 0 := by
  refine ⟨addItem_items c text value, ?_, ?_, ?_⟩
  · intro h
    rw [addItem_selectedIndex, if_pos h]
  · intro h
    rw [addItem_selectedIndex, if_neg h]
  · cases l with
    | nil => exact absurd rfl hl
    | cons p l =>
      unfold getSelectedIndex
      rw [List.foldl_cons]
      apply foldl_addItem_selectedIndex
      rw [addItem_selectedIndex]
      rfl

/-- Witness of C6: adding "a" and then "b" to a fresh widget selects index 0, and adding
"f" to the five-item widget puts it last. -/
theorem addItem_appends_and_selects_once_witness :
    ([("a", 1), ("b", 2)] : List (String × Int)) ≠ [] ∧
      (fiveItemWidget.addItem "f" 5)._items = fiveItemWidget._items ++ [{ text := "f", value := 5 }] ∧
      (([("a", 1), ("b", 2)] : List (String × Int)).foldl (fun w p => w.addItem p.1 p.2)
        (construct { x := 0, y := 0, w := 100, h := 20 } {} true false)).getSelectedIndex = 0 :=
  ⟨by decide,
    (addItem_appends_and_selects_once fiveItemWidget "f" 5 { x := 0, y := 0, w := 100, h := 20 }
      {} true false [("a", 1), ("b", 2)] (by decide)).1,
    (addItem_appends_and_selects_once fiveItemWidget "f" 5 { x := 0, y := 0, w := 100, h := 20 }
      {} true false [("a", 1), ("b", 2)] (by decide)).2.2.2⟩

theorem construct_selectionInRange (rect : UIRect) (style : UIComboBoxStyle)
    (enabled dirty : Bool) : (construct rect style enabled dirty).SelectionInRange := by
  unfold SelectionInRange construct
  simp

theorem addItem_selectionInRange (c : UIComboBox) (text : String) (value : Int)
    (h : c.SelectionInRange) : (c.addItem text value).SelectionInRange := by
  unfold SelectionInRange at *
  rw [addItem_items, addItem_selectedIndex]
  obtain ⟨h1, h2, h3⟩ := h
  simp only [List.length_append, List.length_singleton, Nat.cast_add, Nat.cast_one,
    List.append_eq_nil, List.cons_ne_self, and_false, iff_false]
  split_ifs with hs
  · exact ⟨by omega, by omega, not_false⟩
  · exact ⟨by omega, by omega, hs⟩

theorem setSelectedIndex_selectionInRange (c : UIComboBox) (index : Int)
    (h : c.SelectionInRange) : (c.setSelectedIndex index).1.SelectionInRange := by
  by_cases hv : 0 ≤ index ∧ index < c._items.length
  · by_cases hs : index = c._selectedIndex
    · rw [hs, setSelectedIndex_of_same]
      exact h
    · rw [setSelectedIndex_of_valid c index hv.1 hv.2 hs]
      unfold SelectionInRange setDirty
      dsimp only
      have hne : c._items ≠ [] := by
        intro he
        rw [he] at hv
        simp at hv
        omega
      refine ⟨by omega, by omega, ?_⟩
      constructor
      · intro h; omega
      · intro h; exact absurd h hne
  · rw [setSelectedIndex_of_invalid c index (by omega)]
    exact h

theorem collapse_selectionInRange (c : UIComboBox) (h : c.SelectionInRange) :
    c.collapse.1.SelectionInRange := by
  unfold SelectionInRange at *
  unfold collapse setDirty updateHeight
  dsimp only
  split_ifs <;> exact h

theorem handlePress_selectionInRange (fl : ClickScroll) (c : UIComboBox) (tx ty : Int)
    (h : c.SelectionInRange) : (c.handlePress fl tx ty).1.SelectionInRange := by
  unfold handlePress
  split_ifs
  · exact collapse_selectionInRange c h
  · unfold SelectionInRange at *
    unfold setDirty updateHeight
    dsimp only
    split_ifs <;> exact h
  · exact h
  · split
    · exact collapse_selectionInRange _ (setSelectedIndex_selectionInRange c _ h)
    · exact collapse_selectionInRange c h
  · exact h
  · exact h

theorem step_selectionInRange (fl : ClickScroll) (c : UIComboBox) (op : Op)
    (h : c.SelectionInRange) : (step fl c op).1.SelectionInRange := by
  cases op with
  | addItem text value => exact addItem_selectionInRange c text value h
  | setSelectedIndex index => exact setSelectedIndex_selectionInRange c index h
  | setOnSelect callback => exact h
  | setOnCollapse callback => exact h
  | handlePress tx ty => exact handlePress_selectionInRange fl c tx ty h
  | collapse => exact collapse_selectionInRange c h

theorem run_selectionInRange (fl : ClickScroll) (ops : List Op) :
    ∀ c : UIComboBox, c.SelectionInRange → (run fl c ops).1.SelectionInRange := by
  induction ops with
  | nil => intro c h; exact h
  | cons op ops ih => intro c h; exact ih _ (step_selectionInRange fl c op h)

/-- C7: in every state reached from a freshly constructed widget by `addItem`,
`setSelectedIndex`, `handlePress` and `collapse` calls (and callback registrations),
`-1 ≤ selectedIndex ≤ items.length - 1`, and `selectedIndex = -1` exactly when `items` is
empty. -/
theorem selectedIndex_range_invariant (fl : ClickScroll) (rect : UIRect)
    (style : UIComboBoxStyle) (enabled dirty : Bool) (ops : List Op) :
    -1 ≤ (run fl (construct rect style enabled dirty) ops).1._selectedIndex ∧
      (run fl (construct rect style enabled dirty) ops).1._selectedIndex ≤
        ((run fl (construct rect style enabled dirty) ops).1._items.length : Int) - 1 ∧
      ((run fl (construct rect style enabled dirty) ops).1._selectedIndex = -1 ↔
        (run fl (construct rect style enabled dirty) ops).1._items = []) :=
  run_selectionInRange fl ops _ (construct_selectionInRange rect style enabled dirty)


/-! ## The selection queries -/

/-- C8: in every state reached from a freshly constructed widget, if
`0 ≤ selectedIndex < items.length` then `getSelectedIndex`, `getSelectedValue` and
`getSelectedText` return `selectedIndex`, `items[selectedIndex].value` and
`items[selectedIndex].text`; if `selectedIndex` is -1 or out of range they return -1, -1
and the string "No selection".  The three queries are functions of the state (`const`
methods): they return a value and leave the state as it is. -/
theorem selection_queries (fl : ClickScroll) (rect : UIRect) (style : UIComboBoxStyle)
    (enabled dirty : Bool) (ops : List Op) (c : UIComboBox)
    (hc : c = (run fl (construct rect style enabled dirty) ops).1) :
    (0 ≤ c._selectedIndex ∧ c._selectedIndex < c._items.length →
        c.getSelectedIndex = c._selectedIndex ∧
          ∃ item, c._items[c._selectedIndex.toNat]? = some item ∧
            c.getSelectedValue = item.value ∧ c.getSelectedText = item.text) ∧
      (c._selectedIndex = -1 ∨ ¬ (0 ≤ c._selectedIndex ∧ c._selectedIndex < c._items.length) →
        c.getSelectedIndex = -1 ∧ c.getSelectedValue = -1 ∧
          c.getSelectedText = "No selection") := by
  have hr := run_selectionInRange fl ops _ (construct_selectionInRange rect style enabled dirty)
  rw [← hc] at hr
  unfold SelectionInRange at hr
  constructor
  · intro h
    refine ⟨rfl, c.itemAt c._selectedIndex, itemAt_eq c _ h.1 h.2, ?_, ?_⟩
    · unfold getSelectedValue
      rw [if_pos h]
    · unfold getSelectedText
      rw [if_pos h]
  · intro h
    have hout : ¬ (c._selectedIndex ≥ 0 ∧ c._selectedIndex < c._items.length) := by
      rcases h with h | h
      · omega
      · exact h
    refine ⟨?_, ?_, ?_⟩
    · unfold getSelectedIndex
      omega
    · unfold getSelectedValue
      rw [if_neg hout]
    · unfold getSelectedText
      rw [if_neg hout]

/-- Witness of C8: the five-item widget, reached by five `addItem` calls, has index 0
selected and the queries return 0, the value 0 and the text "a"; a fresh widget has no
selection and the queries return -1, -1 and "No selection". -/
theorem selection_queries_witness :
    (0 ≤ fiveItemWidget._selectedIndex ∧
        fiveItemWidget._selectedIndex < (fiveItemWidget._items.length : Int)) ∧
      fiveItemWidget.getSelectedIndex = 0 ∧
      (∃ item, fiveItemWidget._items[fiveItemWidget._selectedIndex.toNat]? = some item ∧
        fiveItemWidget.getSelectedValue = item.value ∧ fiveItemWidget.getSelectedText = item.text) ∧
      fiveItemWidget.getSelectedValue = 0 ∧
      fiveItemWidget.getSelectedText = "a" ∧
      (construct { x := 0, y := 0, w := 100, h := 20 } {} true false).getSelectedIndex = -1 ∧
      (construct { x := 0, y := 0, w := 100, h := 20 } {} true false).getSelectedValue = -1 ∧
      (construct { x := 0, y := 0, w := 100, h := 20 } {} true false).getSelectedText =
        "No selection" :=
  ⟨by decide,
    ((selection_queries exactClickScroll { x := 0, y := 0, w := 100, h := 20 } {} true false
      addFive fiveItemWidget rfl).1 (by decide)).1.trans (by decide),
    ((selection_queries exactClickScroll { x := 0, y := 0, w := 100, h := 20 } {} true false
      addFive fiveItemWidget rfl).1 (by decide)).2,
    by decide, by decide,
    (selection_queries exactClickScroll { x := 0, y := 0, w := 100, h := 20 } {} true false
      [] (construct { x := 0, y := 0, w := 100, h := 20 } {} true false) rfl).2
      (Or.inl (by decide))⟩

/-! ## Expanding by a press on the header -/

/-- C10: for every enabled, collapsed widget and every press point inside the header
rectangle (the control rectangle at its collapsed height, borders included),
`handlePress` gives `isExpanded = true`, `scrollOffset = 0` and
`height = collapsedHeight + min(items.length, maxVisibleItems) * itemHeight`, marks the
widget dirty, changes nothing else (in particular not `items` and `selectedIndex`) and
invokes no callback.  With `maxVisibleItems = 3`, at least three items and the height at
`collapsedHeight` before the press, the height increases by `3 * itemHeight`. -/
theorem handlePress_header_expands (fl : ClickScroll) (c : UIComboBox) (tx ty : Int)
    (he : c.enabled = true) (hc : c._isExpanded = false) (hh : c.inHeader tx ty) :
    (c.handlePress fl tx ty).1._isExpanded = true ∧
      (c.handlePress fl tx ty).1._scrollOffset = 0 ∧
      (c.handlePress fl tx ty).1.rect.h =
        c._collapsedHeight + min (c._items.length : Int) c._maxVisibleItems * c._style.itemHeight ∧
      (c.handlePress fl tx ty).1._items = c._items ∧
      (c.handlePress fl tx ty).1._selectedIndex = c._selectedIndex ∧
      (c.handlePress fl tx ty).2 = [] ∧
      (c.handlePress fl tx ty).1 =
        { c with
          _isExpanded := true
          _scrollOffset := 0
          dirty := true
          rect := { c.rect with
            h := c._collapsedHeight +
              min (c._items.length : Int) c._maxVisibleItems * c._style.itemHeight } } ∧
      (c._maxVisibleItems = 3 → 3 ≤ c._items.length → c.rect.h = c._collapsedHeight →
        (c.handlePress fl tx ty).1.rect.h = c.rect.h + 3 * c._style.itemHeight) := by
  have key : c.handlePress fl tx ty =
      ({ c with
          _isExpanded := true
          _scrollOffset := 0
          dirty := true
          rect := { c.rect with
            h := c._collapsedHeight +
              min (c._items.length : Int) c._maxVisibleItems * c._style.itemHeight } }, []) := by
    unfold handlePress
    rw [if_neg (by simp [he]), if_pos hh, if_neg (by simp [hc])]
    unfold setDirty updateHeight
    rfl
  rw [key]
  refine ⟨rfl, rfl, rfl, rfl, rfl, rfl, rfl, ?_⟩
  intro hm hn hh
  dsimp only
  rw [hm, hh, min_eq_right (by omega)]

/-- Witness of C10 (scenario C): the five-item widget is enabled, collapsed and 20 high
with `maxVisibleItems = 3` and `itemHeight = 30`; a press at (5, 5), inside its header,
expands it, resets the scroll offset and raises the height to `20 + 3 * 30 = 110`. -/
theorem handlePress_header_expands_witness :
    (fiveItemWidget.enabled = true ∧ fiveItemWidget._isExpanded = false ∧
        fiveItemWidget.inHeader 5 5) ∧
      fiveItemWidget.rect.h = 20 ∧
      (fiveItemWidget.handlePress exactClickScroll 5 5).1._isExpanded = true ∧
      (fiveItemWidget.handlePress exactClickScroll 5 5).1._scrollOffset = 0 ∧
      (fiveItemWidget.handlePress exactClickScroll 5 5).1.rect.h = 110 :=
  ⟨by decide, by decide,
    (handlePress_header_expands exactClickScroll fiveItemWidget 5 5 (by decide) (by decide)
      (by decide)).1,
    (handlePress_header_expands exactClickScroll fiveItemWidget 5 5 (by decide) (by decide)
      (by decide)).2.1,
    (handlePress_header_expands exactClickScroll fiveItemWidget 5 5 (by decide) (by decide)
      (by decide)).2.2.1.trans (by decide)⟩

/-! ## `collapse` -/

/-- C11: for every expanded widget at position `(x, y)` with width `w`, `collapse()` sets
`isExpanded = false` and the height to `collapsedHeight`, leaves `items`,
`selectedIndex` and `scrollOffset` unchanged, and invokes the collapse callback, if one
is registered, exactly once, with the rectangle
`{x, y + collapsedHeight, w, min(items.length, maxVisibleItems) * itemHeight}` of the
state before the call (and invokes nothing otherwise); on a collapsed widget
`collapse()` changes nothing and invokes no callback. -/
theorem collapse_effects (c : UIComboBox) :
    (c._isExpanded = true →
      c.collapse.1._isExpanded = false ∧
        c.collapse.1.rect.h = c._collapsedHeight ∧
        c.collapse.1._items = c._items ∧
        c.collapse.1._selectedIndex = c._selectedIndex ∧
        c.collapse.1._scrollOffset = c._scrollOffset ∧
        (c._onCollapseCallback = true →
          c.collapse.2 = [CallbackEvent.onCollapse
            { x := c.rect.x
              y := c.rect.y + c._collapsedHeight
              w := c.rect.w
              h := min (c._items.length : Int) c._maxVisibleItems * c._style.itemHeight }]) ∧
        (c._onCollapseCallback = false → c.collapse.2 = [])) ∧
      (c._isExpanded = false → c.collapse = (c, [])) := by
  constructor
  · intro hx
    unfold collapse
    rw [if_pos hx]
    unfold setDirty updateHeight
    dsimp only
    refine ⟨rfl, ?_, rfl, rfl, rfl, ?_, ?_⟩
    · simp
    · intro hr
      simp [hr]
    · intro hr
      simp [hr]
  · intro hx
    unfold collapse
    rw [if_neg (by simp [hx])]

/-- Witness of C11: collapsing the expanded five-item widget (collapse callback
registered) closes it, restores the height 20 and passes the list rectangle
`{0, 20, 100, 90}` to the callback; a second `collapse()` does nothing. -/
theorem collapse_effects_witness :
    expandedFiveWidget._isExpanded = true ∧
      expandedFiveWidget.collapse.1._isExpanded = false ∧
      expandedFiveWidget.collapse.1.rect.h = 20 ∧
      expandedFiveWidget.collapse.2 =
        [CallbackEvent.onCollapse { x := 0, y := 20, w := 100, h := 90 }] ∧
      expandedFiveWidget.collapse.1.collapse = (expandedFiveWidget.collapse.1, []) :=
  ⟨by decide,
    ((collapse_effects expandedFiveWidget).1 (by decide)).1,
    ((collapse_effects expandedFiveWidget).1 (by decide)).2.1.trans (by decide),
    (((collapse_effects expandedFiveWidget).1 (by decide)).2.2.2.2.2.1 (by decide)).trans
      (by decide),
    (collapse_effects expandedFiveWidget.collapse.1).2 (by decide)⟩

/-! ## The branches of `handlePress` -/

theorem rowLoop_first_hit (c : UIComboBox) (tx ty : Int) (i : Int)
    (hi : i < c._maxVisibleItems) (hv : c._scrollOffset + i < c._items.length)
    (hrow : c.inRow tx ty i) :
    ∀ (fuel : Nat) (k : Int), k ≤ i → i - k < fuel →
      (∀ j : Int, k ≤ j → j < i → ¬ c.inRow tx ty j) →
      rowLoop c tx ty fuel k = some (c._scrollOffset + i) := by
  intro fuel
  induction fuel with
  | zero => intro k hk hf _; omega
  | succ fuel ih =>
    intro k hk hf hno
    unfold rowLoop
    rw [if_pos (by omega)]
    dsimp only
    rw [if_neg (by omega)]
    by_cases hki : k = i
    · rw [hki, if_pos hrow]
    · rw [if_neg (hno k (le_refl k) (by omega))]
      exact ih (k + 1) (by omega) (by omega) (fun j hj1 hj2 => hno j (by omega) hj2)

theorem rowLoop_some (c : UIComboBox) (tx ty : Int) :
    ∀ (fuel : Nat) (k : Int) (idx : Int), rowLoop c tx ty fuel k = some idx →
      ∃ j : Int, k ≤ j ∧ j < c._maxVisibleItems ∧ idx = c._scrollOffset + j ∧
        idx < c._items.length ∧ c.inRow tx ty j := by
  intro fuel
  induction fuel with
  | zero => intro k idx h; simp [rowLoop] at h
  | succ fuel ih =>
    intro k idx h
    unfold rowLoop at h
    by_cases h1 : k < c._maxVisibleItems
    · rw [if_pos h1] at h
      dsimp only at h
      by_cases h2 : c._scrollOffset + k ≥ (c._items.length : Int)
      · rw [if_pos h2] at h
        exact absurd h (by simp)
      · rw [if_neg h2] at h
        by_cases h3 : c.inRow tx ty k
        · rw [if_pos h3] at h
          have hidx : c._scrollOffset + k = idx := Option.some.inj h
          exact ⟨k, le_refl k, h1, hidx.symm, by omega, h3⟩
        · rw [if_neg h3] at h
          obtain ⟨j, hj1, hj2, hj3, hj4, hj5⟩ := ih (k + 1) idx h
          exact ⟨j, by omega, hj2, hj3, hj4, hj5⟩
    · rw [if_neg h1] at h
      exact absurd h (by simp)

theorem handlePress_list_area (fl : ClickScroll) (c : UIComboBox) (tx ty : Int)
    (he : c.enabled = true) (hx : c._isExpanded = true) (hh : ¬ c.inHeader tx ty)
    (hsb : ¬ c.inScrollBar tx ty) :
    c.handlePress fl tx ty =
      match rowLoop c tx ty c._maxVisibleItems.toNat 0 with
      | some itemIndex =>
        ((c.setSelectedIndex itemIndex).1.collapse.1,
          (c.setSelectedIndex itemIndex).2 ++ (c.setSelectedIndex itemIndex).1.collapse.2)
      | none => c.collapse := by
  unfold handlePress
  rw [if_neg (by simp [he]), if_neg hh, if_pos hx, if_neg hsb]

theorem handlePress_scrollBar (fl : ClickScroll) (c : UIComboBox) (tx ty : Int)
    (he : c.enabled = true) (hx : c._isExpanded = true) (hh : ¬ c.inHeader tx ty)
    (hsb : c.inScrollBar tx ty) :
    c.handlePress fl tx ty =
      (setDirty { c with _scrollOffset := scrollOffsetFromClick fl c ty } true, []) := by
  unfold handlePress
  rw [if_neg (by simp [he]), if_neg hh, if_pos hx, if_pos hsb]

theorem setSelectedIndex_isExpanded (c : UIComboBox) (index : Int) :
    (c.setSelectedIndex index).1._isExpanded = c._isExpanded := by
  unfold setSelectedIndex setDirty
  dsimp only
  split_ifs <;> rfl

theorem setSelectedIndex_frame (c : UIComboBox) (index : Int) :
    (c.setSelectedIndex index).1._items = c._items ∧
      (c.setSelectedIndex index).1.rect = c.rect ∧
      (c.setSelectedIndex index).1._onCollapseCallback = c._onCollapseCallback := by
  unfold setSelectedIndex setDirty
  dsimp only
  split_ifs <;> exact ⟨rfl, rfl, rfl⟩

theorem collapse_of_expanded (c : UIComboBox) (hx : c._isExpanded = true) :
    c.collapse =
      ({ c with
          _isExpanded := false
          dirty := true
          rect := { c.rect with h := c._collapsedHeight } },
        if c._onCollapseCallback then
          [CallbackEvent.onCollapse
            { x := c.rect.x
              y := c.rect.y + c._collapsedHeight
              w := c.rect.w
              h := min (c._items.length : Int) c._maxVisibleItems * c._style.itemHeight }]
        else []) := by
  unfold collapse
  rw [if_pos hx]
  unfold setDirty updateHeight
  simp

theorem setSelectedIndex_selects (c : UIComboBox) (index : Int)
    (h0 : 0 ≤ index) (h1 : index < c._items.length) :
    (c.setSelectedIndex index).1._selectedIndex = index := by
  by_cases hs : index = c._selectedIndex
  · rw [hs, setSelectedIndex_of_same]
  · rw [setSelectedIndex_of_valid c index h0 h1 hs]
    rfl

theorem select_then_collapse (c : UIComboBox) (index : Int) (hx : c._isExpanded = true) :
    (c.setSelectedIndex index).1.collapse.1._isExpanded = false ∧
      (c.setSelectedIndex index).1.collapse.1._selectedIndex =
        (c.setSelectedIndex index).1._selectedIndex ∧
      (c.setSelectedIndex index).1.collapse.2 =
        (if c._onCollapseCallback then
          [CallbackEvent.onCollapse
            { x := c.rect.x
              y := c.rect.y + c._collapsedHeight
              w := c.rect.w
              h := min (c._items.length : Int) c._maxVisibleItems * c._style.itemHeight }]
        else []) := by
  have hx1 : (c.setSelectedIndex index).1._isExpanded = true := by
    rw [setSelectedIndex_isExpanded]
    exact hx
  obtain ⟨f1, f2, f3⟩ := setSelectedIndex_frame c index
  obtain ⟨g1, g2, g3, _⟩ := setSelectedIndex_sameConfig c index
  rw [collapse_of_expanded _ hx1]
  refine ⟨rfl, rfl, ?_⟩
  dsimp only
  rw [f1, f2, f3, g1, g2, g3]

/-- C12, counterexample: on the expanded five-item widget (`itemHeight = 30`, list top at
y = 20, `scrollOffset = 0`) the point (5, 80) is outside the header and the scroll bar
and lies in the rectangle of row slot 2 (y from 80 to 110), and slot 2 holds item 2; but
it also lies in the rectangle of slot 1 (y from 50 to 80), which the loop tests first,
so the press selects index 1 and not index 2. -/
theorem handlePress_row_boundary_selects_upper_row :
    expandedFiveWidget.enabled = true ∧ expandedFiveWidget._isExpanded = true ∧
      ¬ expandedFiveWidget.inHeader 5 80 ∧ ¬ expandedFiveWidget.inScrollBar 5 80 ∧
      (2 : Int) < expandedFiveWidget._maxVisibleItems ∧
      expandedFiveWidget._scrollOffset + 2 < (expandedFiveWidget._items.length : Int) ∧
      expandedFiveWidget.inRow 5 80 2 ∧
      (expandedFiveWidget.handlePress exactClickScroll 5 80).1._selectedIndex = 1 ∧
      (expandedFiveWidget.handlePress exactClickScroll 5 80).1._selectedIndex ≠
        expandedFiveWidget._scrollOffset + 2 := by
  decide

/-- C12, amended: for every enabled, expanded widget, every row slot `i` in
`[0, maxVisibleItems)` with `0 ≤ scrollOffset + i < items.length`, and every press point
outside the header and outside the scroll bar that falls within row `i`'s rectangle and
within the rectangle of no earlier row slot, `handlePress` gives
`selectedIndex = (pre-press scrollOffset) + i` and `isExpanded = false`; the callbacks
invoked are those of `setSelectedIndex(scrollOffset + i)` followed, if a collapse callback
is registered, by one collapse callback with the list rectangle from before the
collapse. -/
theorem handlePress_row_selects (fl : ClickScroll) (c : UIComboBox) (tx ty : Int) (i : Int)
    (he : c.enabled = true) (hx : c._isExpanded = true) (hh : ¬ c.inHeader tx ty)
    (hsb : ¬ c.inScrollBar tx ty) (hi0 : 0 ≤ i) (hi : i < c._maxVisibleItems)
    (hv0 : 0 ≤ c._scrollOffset + i) (hv : c._scrollOffset + i < c._items.length)
    (hrow : c.inRow tx ty i) (hfirst : ∀ j : Int, 0 ≤ j → j < i → ¬ c.inRow tx ty j) :
    (c.handlePress fl tx ty).1._selectedIndex = c._scrollOffset + i ∧
      (c.handlePress fl tx ty).1._isExpanded = false ∧
      (c.handlePress fl tx ty).2 =
        (c.setSelectedIndex (c._scrollOffset + i)).2 ++
          (if c._onCollapseCallback then
            [CallbackEvent.onCollapse
              { x := c.rect.x
                y := c.rect.y + c._collapsedHeight
                w := c.rect.w
                h := min (c._items.length : Int) c._maxVisibleItems * c._style.itemHeight }]
          else []) := by
  have hloop := rowLoop_first_hit c tx ty i hi hv hrow c._maxVisibleItems.toNat 0 hi0
    (by omega) hfirst
  rw [handlePress_list_area fl c tx ty he hx hh hsb, hloop]
  dsimp only
  obtain ⟨k1, k2, k3⟩ := select_then_collapse c (c._scrollOffset + i) hx
  refine ⟨?_, k1, ?_⟩
  · rw [k2]
    exact setSelectedIndex_selects c _ hv0 hv
  · rw [k3]

/-- Witness of C12 (scenario E): on the expanded five-item widget a press at (5, 60), on
the second visible row, selects index `scrollOffset + 1 = 1`, closes the list, and calls
the select callback with `(1, 1)` and then the collapse callback with `{0, 20, 100, 90}`. -/
theorem handlePress_row_selects_witness :
    (expandedFiveWidget.enabled = true ∧ expandedFiveWidget._isExpanded = true ∧
        ¬ expandedFiveWidget.inHeader 5 60 ∧ ¬ expandedFiveWidget.inScrollBar 5 60 ∧
        expandedFiveWidget.inRow 5 60 1 ∧ ¬ expandedFiveWidget.inRow 5 60 0) ∧
      (expandedFiveWidget.handlePress exactClickScroll 5 60).1._selectedIndex = 1 ∧
      (expandedFiveWidget.handlePress exactClickScroll 5 60).1._isExpanded = false ∧
      (expandedFiveWidget.handlePress exactClickScroll 5 60).2 =
        [CallbackEvent.onSelect 1 1,
          CallbackEvent.onCollapse { x := 0, y := 20, w := 100, h := 90 }] :=
  ⟨by decide,
    (handlePress_row_selects exactClickScroll expandedFiveWidget 5 60 1 (by decide)
      (by decide) (by decide) (by decide) (by decide) (by decide) (by decide) (by decide)
      (by decide) (fun j h0 h1 => by
        have hj : j = 0 := by omega
        subst hj
        decide)).1.trans (by decide),
    (handlePress_row_selects exactClickScroll expandedFiveWidget 5 60 1 (by decide)
      (by decide) (by decide) (by decide) (by decide) (by decide) (by decide) (by decide)
      (by decide) (fun j h0 h1 => by
        have hj : j = 0 := by omega
        subst hj
        decide)).2.1,
    (handlePress_row_selects exactClickScroll expandedFiveWidget 5 60 1 (by decide)
      (by decide) (by decide) (by decide) (by decide) (by decide) (by decide) (by decide)
      (by decide) (fun j h0 h1 => by
        have hj : j = 0 := by omega
        subst hj
        decide)).2.2.trans (by decide)⟩

/-- C13: for every enabled, expanded widget and every press point that is not in the
header rectangle, not in the scroll-bar rectangle of a showing scroll bar and not in the
rectangle of any visible row slot holding a valid item, `handlePress` does what
`collapse()` does: `isExpanded = false` with `selectedIndex`, `scrollOffset` and `items`
unchanged, the select callback not invoked, and the collapse callback, when one is
registered, invoked exactly once (nothing is invoked when none is registered). -/
theorem handlePress_elsewhere_collapses (fl : ClickScroll) (c : UIComboBox) (tx ty : Int)
    (he : c.enabled = true) (hx : c._isExpanded = true) (hh : ¬ c.inHeader tx ty)
    (hsb : ¬ c.inScrollBar tx ty)
    (hrows : ∀ j : Int, 0 ≤ j → j < c._maxVisibleItems → 0 ≤ c._scrollOffset + j →
      c._scrollOffset + j < c._items.length → ¬ c.inRow tx ty j) :
    c.handlePress fl tx ty = c.collapse ∧
      (c.handlePress fl tx ty).1._isExpanded = false ∧
      (c.handlePress fl tx ty).1._selectedIndex = c._selectedIndex ∧
      (c.handlePress fl tx ty).1._scrollOffset = c._scrollOffset ∧
      (c.handlePress fl tx ty).1._items = c._items ∧
      (∀ index value : Int, CallbackEvent.onSelect index value ∉ (c.handlePress fl tx ty).2) ∧
      (c._onCollapseCallback = true →
        (c.handlePress fl tx ty).2 = [CallbackEvent.onCollapse
          { x := c.rect.x
            y := c.rect.y + c._collapsedHeight
            w := c.rect.w
            h := min (c._items.length : Int) c._maxVisibleItems * c._style.itemHeight }]) ∧
      (c._onCollapseCallback = false → (c.handlePress fl tx ty).2 = []) := by
  have key : c.handlePress fl tx ty = c.collapse := by
    rw [handlePress_list_area fl c tx ty he hx hh hsb]
    cases hl : rowLoop c tx ty c._maxVisibleItems.toNat 0 with
    | none => rfl
    | some idx =>
      obtain ⟨j, hj1, hj2, hj3, hj4, hj5⟩ := rowLoop_some c tx ty _ 0 idx hl
      have hneg : idx < 0 := by
        by_contra hn
        exact hrows j hj1 hj2 (by omega) (by omega) hj5
      dsimp only
      rw [setSelectedIndex_of_invalid c idx (Or.inl hneg)]
      simp
  rw [key, collapse_of_expanded c hx]
  refine ⟨rfl, rfl, rfl, rfl, rfl, ?_, ?_, ?_⟩
  · intro index value
    dsimp only
    split_ifs <;> simp
  · intro hr
    simp [hr]
  · intro hr
    simp [hr]

/-- Witness of C13 (scenario F): on the expanded five-item widget the point (95, 115) is
just below the scroll bar, outside the header, the scroll bar and every row; the press
closes the list, keeps index 0 selected and calls only the collapse callback. -/
theorem handlePress_elsewhere_collapses_witness :
    (expandedFiveWidget.enabled = true ∧ expandedFiveWidget._isExpanded = true ∧
        ¬ expandedFiveWidget.inHeader 95 115 ∧ ¬ expandedFiveWidget.inScrollBar 95 115) ∧
      (expandedFiveWidget.handlePress exactClickScroll 95 115).1._isExpanded = false ∧
      (expandedFiveWidget.handlePress exactClickScroll 95 115).1._selectedIndex = 0 ∧
      (expandedFiveWidget.handlePress exactClickScroll 95 115).2 =
        [CallbackEvent.onCollapse { x := 0, y := 20, w := 100, h := 90 }] :=
  ⟨by decide,
    (handlePress_elsewhere_collapses exactClickScroll expandedFiveWidget 95 115 (by decide)
      (by decide) (by decide) (by decide) (fun j _ _ _ _ hr => by
        unfold inRow at hr
        have h1 : (95 : Int) ≤ expandedFiveWidget.rect.x + expandedFiveWidget.rect.w -
            (if (expandedFiveWidget._items.length : Int) >
                toSizeT expandedFiveWidget._maxVisibleItems
              then expandedFiveWidget._scrollBarWidth else 0) := hr.2.1
        exact absurd h1 (by decide))).2.1,
    (handlePress_elsewhere_collapses exactClickScroll expandedFiveWidget 95 115 (by decide)
      (by decide) (by decide) (by decide) (fun j _ _ _ _ hr => by
        unfold inRow at hr
        have h1 : (95 : Int) ≤ expandedFiveWidget.rect.x + expandedFiveWidget.rect.w -
            (if (expandedFiveWidget._items.length : Int) >
                toSizeT expandedFiveWidget._maxVisibleItems
              then expandedFiveWidget._scrollBarWidth else 0) := hr.2.1
        exact absurd h1 (by decide))).2.2.1.trans (by decide),
    (handlePress_elsewhere_collapses exactClickScroll expandedFiveWidget 95 115 (by decide)
      (by decide) (by decide) (by decide) (fun j _ _ _ _ hr => by
        unfold inRow at hr
        have h1 : (95 : Int) ≤ expandedFiveWidget.rect.x + expandedFiveWidget.rect.w -
            (if (expandedFiveWidget._items.length : Int) >
                toSizeT expandedFiveWidget._maxVisibleItems
              then expandedFiveWidget._scrollBarWidth else 0) := hr.2.1
        exact absurd h1 (by decide))).2.2.2.2.2.2.1 (by decide) |>.trans (by decide)⟩

theorem toSizeT_of_nonneg (i : Int) (h : 0 ≤ i) : toSizeT i = i := by
  unfold toSizeT
  rw [if_neg (by omega)]

/-- C14: for every enabled, expanded widget with `items.length > maxVisibleItems ≥ 1` and
every press point inside the scroll-bar rectangle and outside the header whose `y`
satisfies `ty ≥ listTop + visibleListHeight - itemHeight / 2` (integer division),
`handlePress` sets `scrollOffset = items.length - maxVisibleItems`, whatever the
floating-point click computation returns. -/
theorem handlePress_scrollBar_snap_to_end (fl : ClickScroll) (c : UIComboBox) (tx ty : Int)
    (he : c.enabled = true) (hx : c._isExpanded = true)
    (hn : (c._items.length : Int) > c._maxVisibleItems) (hm : c._maxVisibleItems ≥ 1)
    (hx1 : tx ≥ c.rect.x + c.rect.w - c._scrollBarWidth) (hx2 : tx ≤ c.rect.x + c.rect.w)
    (hy1 : ty ≥ c.rect.y + c._collapsedHeight)
    (hy2 : ty ≤ c.rect.y + c._collapsedHeight +
      min (c._items.length : Int) c._maxVisibleItems * c._style.itemHeight)
    (hh : ¬ c.inHeader tx ty)
    (hsnap : ty ≥ c.rect.y + c._collapsedHeight +
      min (c._items.length : Int) c._maxVisibleItems * c._style.itemHeight -
        Int.tdiv c._style.itemHeight 2) :
    (c.handlePress fl tx ty).1._scrollOffset = (c._items.length : Int) - c._maxVisibleItems := by
  have hsb : c.inScrollBar tx ty := by
    unfold inScrollBar
    rw [toSizeT_of_nonneg _ (by omega)]
    exact ⟨hn, hx1, hx2, hy1, hy2⟩
  rw [handlePress_scrollBar fl c tx ty he hx hh hsb]
  unfold setDirty scrollOffsetFromClick
  dsimp only
  rw [if_pos hsnap, if_neg (by omega)]
  split_ifs <;> omega

/-- Witness of C14 (scenario D): on the expanded five-item widget (`maxVisibleItems = 3`,
track from y = 20 to y = 110) a press at (95, 110), on the bottom-most pixel of the
scroll-bar track, gives `scrollOffset = 2`. -/
theorem handlePress_scrollBar_snap_to_end_witness :
    (expandedFiveWidget.enabled = true ∧ expandedFiveWidget._isExpanded = true ∧
        (expandedFiveWidget._items.length : Int) = 5 ∧
        expandedFiveWidget._maxVisibleItems = 3 ∧
        ¬ expandedFiveWidget.inHeader 95 110) ∧
      (expandedFiveWidget.handlePress exactClickScroll 95 110).1._scrollOffset = 2 :=
  ⟨by decide,
    (handlePress_scrollBar_snap_to_end exactClickScroll expandedFiveWidget 95 110 (by decide)
      (by decide) (by decide) (by decide) (by decide) (by decide) (by decide) (by decide)
      (by decide) (by decide)).trans (by decide)⟩

theorem inScrollBar_iff_of_nonneg (c : UIComboBox) (tx ty : Int) (hm : 0 ≤ c._maxVisibleItems) :
    c.inScrollBar tx ty ↔
      ((c._items.length : Int) > c._maxVisibleItems ∧
        tx ≥ c.rect.x + c.rect.w - c._scrollBarWidth ∧ tx ≤ c.rect.x + c.rect.w ∧
        ty ≥ c.rect.y + c._collapsedHeight ∧
        ty ≤ c.rect.y + c._collapsedHeight +
          min (c._items.length : Int) c._maxVisibleItems * c._style.itemHeight) := by
  unfold inScrollBar
  rw [toSizeT_of_nonneg _ hm]

/-- C15, counterexample: the widget with `maxVisibleItems = -1`, `itemHeight = -30` and two
items, expanded by a press on its header, satisfies `items.length > maxVisibleItems`
(`2 > -1`), and the point (95, 30) is outside the header and inside the scroll-bar
rectangle (x from 90 to 100, y from `listTop = 20` to `20 + (-1) * (-30) = 50`).  The code
compares `_items.size() > _maxVisibleItems` in `size_t`, where -1 is `2^32 - 1`, so the
scroll-bar branch is not taken, the row loop runs no iteration, and the press collapses
the list and resets the height from 50 to 20. -/
theorem handlePress_scrollBar_rectangle_collapses :
    negativeStyleWidget.enabled = true ∧ negativeStyleWidget._isExpanded = true ∧
      (negativeStyleWidget._items.length : Int) > negativeStyleWidget._maxVisibleItems ∧
      (95 : Int) ≥ negativeStyleWidget.rect.x + negativeStyleWidget.rect.w -
        negativeStyleWidget._scrollBarWidth ∧
      (95 : Int) ≤ negativeStyleWidget.rect.x + negativeStyleWidget.rect.w ∧
      (30 : Int) ≥ negativeStyleWidget.rect.y + negativeStyleWidget._collapsedHeight ∧
      (30 : Int) ≤ negativeStyleWidget.rect.y + negativeStyleWidget._collapsedHeight +
        min (negativeStyleWidget._items.length : Int) negativeStyleWidget._maxVisibleItems *
          negativeStyleWidget._style.itemHeight ∧
      ¬ negativeStyleWidget.inHeader 95 30 ∧
      ¬ negativeStyleWidget.inScrollBar 95 30 ∧
      negativeStyleWidget.rect.h = 50 ∧
      (negativeStyleWidget.handlePress exactClickScroll 95 30).1._isExpanded = false ∧
      (negativeStyleWidget.handlePress exactClickScroll 95 30).1.rect.h = 20 := by
  decide

/-- C15, amended: for every enabled, expanded widget with
`items.length > maxVisibleItems ≥ 0` and every press point inside the scroll-bar rectangle
and outside the header, `handlePress` leaves `selectedIndex`, `items`, `isExpanded` (still
true) and the height unchanged and invokes neither the select nor the collapse callback;
the state after the press differs from the state before it in `scrollOffset` and the
dirty flag only. -/
theorem handlePress_scrollBar_only_scrolls (fl : ClickScroll) (c : UIComboBox) (tx ty : Int)
    (he : c.enabled = true) (hx : c._isExpanded = true)
    (hm : 0 ≤ c._maxVisibleItems) (hn : (c._items.length : Int) > c._maxVisibleItems)
    (hx1 : tx ≥ c.rect.x + c.rect.w - c._scrollBarWidth) (hx2 : tx ≤ c.rect.x + c.rect.w)
    (hy1 : ty ≥ c.rect.y + c._collapsedHeight)
    (hy2 : ty ≤ c.rect.y + c._collapsedHeight +
      min (c._items.length : Int) c._maxVisibleItems * c._style.itemHeight)
    (hh : ¬ c.inHeader tx ty) :
    (c.handlePress fl tx ty).1._selectedIndex = c._selectedIndex ∧
      (c.handlePress fl tx ty).1._items = c._items ∧
      (c.handlePress fl tx ty).1._isExpanded = true ∧
      (c.handlePress fl tx ty).1.rect.h = c.rect.h ∧
      (c.handlePress fl tx ty).2 = [] ∧
      { (c.handlePress fl tx ty).1 with _scrollOffset := c._scrollOffset, dirty := c.dirty } = c := by
  have hsb : c.inScrollBar tx ty :=
    (inScrollBar_iff_of_nonneg c tx ty hm).2 ⟨hn, hx1, hx2, hy1, hy2⟩
  rw [handlePress_scrollBar fl c tx ty he hx hh hsb]
  unfold setDirty
  exact ⟨rfl, rfl, hx, rfl, rfl, rfl⟩

/-- Witness of C15 (amended): on the expanded five-item widget (five items,
`maxVisibleItems = 3`, scroll bar from x = 90 to x = 100 and y = 20 to y = 110) a press
at (95, 60) leaves the list open with index 0 selected and the height at 110, and invokes
no callback. -/
theorem handlePress_scrollBar_only_scrolls_witness :
    (expandedFiveWidget.enabled = true ∧ expandedFiveWidget._isExpanded = true ∧
        0 ≤ expandedFiveWidget._maxVisibleItems ∧
        (expandedFiveWidget._items.length : Int) > expandedFiveWidget._maxVisibleItems ∧
        ¬ expandedFiveWidget.inHeader 95 60) ∧
      (expandedFiveWidget.handlePress exactClickScroll 95 60).1._selectedIndex = 0 ∧
      (expandedFiveWidget.handlePress exactClickScroll 95 60).1._isExpanded = true ∧
      (expandedFiveWidget.handlePress exactClickScroll 95 60).1.rect.h = 110 ∧
      (expandedFiveWidget.handlePress exactClickScroll 95 60).2 = [] :=
  ⟨by decide,
    (handlePress_scrollBar_only_scrolls exactClickScroll expandedFiveWidget 95 60 (by decide)
      (by decide) (by decide) (by decide) (by decide) (by decide) (by decide) (by decide)
      (by decide)).1.trans (by decide),
    (handlePress_scrollBar_only_scrolls exactClickScroll expandedFiveWidget 95 60 (by decide)
      (by decide) (by decide) (by decide) (by decide) (by decide) (by decide) (by decide)
      (by decide)).2.2.1,
    (handlePress_scrollBar_only_scrolls exactClickScroll expandedFiveWidget 95 60 (by decide)
      (by decide) (by decide) (by decide) (by decide) (by decide) (by decide) (by decide)
      (by decide)).2.2.2.1.trans (by decide),
    (handlePress_scrollBar_only_scrolls exactClickScroll expandedFiveWidget 95 60 (by decide)
      (by decide) (by decide) (by decide) (by decide) (by decide) (by decide) (by decide)
      (by decide)).2.2.2.2.1⟩

/-- C16: for every press point, `handlePress` returns the widget unchanged (items,
selection, scroll offset, expansion, height, dirty flag and every other member) and
invokes no callback whenever the widget is disabled, or is collapsed and the point lies
outside the header rectangle. -/
theorem handlePress_ignored (fl : ClickScroll) (c : UIComboBox) (tx ty : Int)
    (h : c.enabled = false ∨ (c._isExpanded = false ∧ ¬ c.inHeader tx ty)) :
    c.handlePress fl tx ty = (c, []) := by
  unfold handlePress
  rcases h with h | ⟨h1, h2⟩
  · rw [if_pos (by simp [h])]
  · by_cases hen : ¬ (c.enabled = true)
    · rw [if_pos hen]
    · rw [if_neg hen, if_neg h2, if_neg (by simp [h1])]

/-- Witness of C16: a press at (5, 60), below the header of the collapsed five-item
widget, changes nothing; neither does a press on the header once the widget is disabled. -/
theorem handlePress_ignored_witness :
    (fiveItemWidget._isExpanded = false ∧ ¬ fiveItemWidget.inHeader 5 60) ∧
      fiveItemWidget.handlePress exactClickScroll 5 60 = (fiveItemWidget, []) ∧
      ({ fiveItemWidget with enabled := false } : UIComboBox).handlePress exactClickScroll 5 5 =
        ({ fiveItemWidget with enabled := false }, []) :=
  ⟨by decide,
    handlePress_ignored exactClickScroll fiveItemWidget 5 60 (Or.inr (by decide)),
    handlePress_ignored exactClickScroll { fiveItemWidget with enabled := false } 5 5
      (Or.inl rfl)⟩

/-! ## The height as a derived value -/

theorem setSelectedIndex_heightDerived (c : UIComboBox) (index : Int) (h : c.HeightDerived) :
    (c.setSelectedIndex index).1.HeightDerived := by
  unfold HeightDerived at *
  unfold setSelectedIndex setDirty
  dsimp only
  split_ifs <;> simp_all

theorem collapse_heightDerived (c : UIComboBox) (h : c.HeightDerived) :
    c.collapse.1.HeightDerived := by
  by_cases hx : c._isExpanded = true
  · rw [collapse_of_expanded c hx]
    unfold HeightDerived
    simp
  · unfold collapse
    rw [if_neg hx]
    exact h

theorem handlePress_heightDerived (fl : ClickScroll) (c : UIComboBox) (tx ty : Int)
    (h : c.HeightDerived) : (c.handlePress fl tx ty).1.HeightDerived := by
  unfold handlePress
  split_ifs
  · exact collapse_heightDerived c h
  · unfold HeightDerived setDirty updateHeight
    simp
  · unfold HeightDerived at *
    unfold setDirty
    dsimp only
    exact h
  · split
    · exact collapse_heightDerived _ (setSelectedIndex_heightDerived c _ h)
    · exact collapse_heightDerived c h
  · exact h
  · exact h

theorem addItem_heightDerived_of_collapsed (c : UIComboBox) (text : String) (value : Int)
    (h : c.HeightDerived) (hx : c._isExpanded = false) :
    (c.addItem text value).HeightDerived := by
  unfold HeightDerived at *
  unfold addItem setDirty
  dsimp only
  split_ifs <;> simp_all

theorem step_heightDerived (fl : ClickScroll) (c : UIComboBox) (op : Op) (h : c.HeightDerived)
    (hop : ∀ (text : String) (value : Int), op = Op.addItem text value → c._isExpanded = false) :
    (step fl c op).1.HeightDerived := by
  cases op with
  | addItem text value =>
    exact addItem_heightDerived_of_collapsed c text value h (hop text value rfl)
  | setSelectedIndex index => exact setSelectedIndex_heightDerived c index h
  | setOnSelect callback => exact h
  | setOnCollapse callback => exact h
  | handlePress tx ty => exact handlePress_heightDerived fl c tx ty h
  | collapse => exact collapse_heightDerived c h

/-- C17, the code at the failing input: a fresh widget (`maxVisibleItems = 3`,
`itemHeight = 30`, collapsed height 20) after `addItem`, a press on the header and a
second `addItem` is expanded with two items, and its height is still 50, the value
computed for one item, not the derived value `20 + min(2, 3) * 30 = 80`. -/
theorem height_stale_after_addItem_while_expanded :
    twoItemExpandedWidget._isExpanded = true ∧
      twoItemExpandedWidget._items.length = 2 ∧
      twoItemExpandedWidget.rect.h = 50 ∧
      twoItemExpandedWidget._collapsedHeight +
        min (twoItemExpandedWidget._items.length : Int) twoItemExpandedWidget._maxVisibleItems *
          twoItemExpandedWidget._style.itemHeight = 80 ∧
      ¬ twoItemExpandedWidget.HeightDerived := by
  decide

/-! ## Row and scroll-bar hit tests -/

/-- C18, counterexample: on the expanded five-item widget (five items,
`maxVisibleItems = 3`, `scrollBarWidth = 10`, width 100) the point (90, 60) satisfies
the scroll-bar hit test (`90 ≥ scrollBarX = 90`) and the hit test of row slot 1
(`90 ≤ 100 - 10`). -/
theorem row_and_scrollBar_tests_overlap :
    expandedFiveWidget._isExpanded = true ∧
      (expandedFiveWidget._items.length : Int) > expandedFiveWidget._maxVisibleItems ∧
      expandedFiveWidget._scrollBarWidth ≥ 1 ∧
      expandedFiveWidget.inScrollBar 90 60 ∧ expandedFiveWidget.inRow 90 60 1 := by
  decide

/-- C18, amended: for every widget, a press point that satisfies both the scroll-bar hit
test and the hit test of a row slot, as written in `handlePress`, has
`tx = x + width - scrollBarWidth`, the left-most column of the scroll bar; and on an
enabled, expanded widget a press there, outside the header, is handled by the scroll-bar
branch, which comes first: the selection stays, the list stays open, no callback is
invoked. -/
theorem row_and_scrollBar_tests_overlap_only_on_edge (fl : ClickScroll) (c : UIComboBox)
    (tx ty : Int) (i : Int) (hsb : c.inScrollBar tx ty) (hrow : c.inRow tx ty i) :
    tx = c.rect.x + c.rect.w - c._scrollBarWidth ∧
      (c.enabled = true → c._isExpanded = true → ¬ c.inHeader tx ty →
        (c.handlePress fl tx ty).1._selectedIndex = c._selectedIndex ∧
          (c.handlePress fl tx ty).1._isExpanded = true ∧
          (c.handlePress fl tx ty).2 = []) := by
  constructor
  · unfold inScrollBar at hsb
    unfold inRow at hrow
    dsimp only at hsb hrow
    rw [if_pos hsb.1] at hrow
    omega
  · intro he hx hh
    rw [handlePress_scrollBar fl c tx ty he hx hh hsb]
    exact ⟨rfl, hx, rfl⟩

/-- Witness of C18 (amended): on the expanded five-item widget the point (90, 60)
satisfies both hit tests, 90 is the left-most scroll-bar column, and the press leaves
index 0 selected. -/
theorem row_and_scrollBar_tests_overlap_only_on_edge_witness :
    (expandedFiveWidget.inScrollBar 90 60 ∧ expandedFiveWidget.inRow 90 60 1) ∧
      (90 : Int) = expandedFiveWidget.rect.x + expandedFiveWidget.rect.w -
        expandedFiveWidget._scrollBarWidth ∧
      (expandedFiveWidget.handlePress exactClickScroll 90 60).1._selectedIndex = 0 :=
  ⟨by decide,
    (row_and_scrollBar_tests_overlap_only_on_edge exactClickScroll expandedFiveWidget 90 60 1
      (by decide) (by decide)).1,
    ((row_and_scrollBar_tests_overlap_only_on_edge exactClickScroll expandedFiveWidget 90 60 1
      (by decide) (by decide)).2 (by decide) (by decide) (by decide)).1.trans (by decide)⟩

/-! ## The scroll-bar thumb -/

/-- C19, counterexample: the widget with eight items, `maxVisibleItems = 3`,
`itemHeight = 30` and `scrollOffset = 2` is expanded and its scroll bar is drawn; there
`thumbHeight = 33`, `maxScrollOffset = 5`, and `(90 - 33) * 2 / 5 = 22.8`, which
`drawScrollBar` converts to 22, so `thumbY = 20 + 22 = 42`, while rounding gives
`20 + 23 = 43`. -/
theorem thumbY_truncates_where_spec_rounds :
    eightItemWidget._isExpanded = true ∧
      (eightItemWidget._items.length : Int) > eightItemWidget._maxVisibleItems ∧
      eightItemWidget.drawInternalScrollBar = eightItemWidget.drawScrollBar ∧
      eightItemWidget._scrollOffset = 2 ∧
      eightItemWidget.thumbHeight = 33 ∧
      eightItemWidget.thumbY = 42 ∧
      eightItemWidget.specThumbY = 43 := by
  refine ⟨by decide, by decide, by decide, by decide, by decide, by decide, ?_⟩
  have h1 : eightItemWidget.rect.y + eightItemWidget._collapsedHeight = 20 := by decide
  have h2 : min (eightItemWidget._items.length : Int) eightItemWidget._maxVisibleItems *
      eightItemWidget._style.itemHeight - eightItemWidget.thumbHeight = 57 := by decide
  have h3 : (eightItemWidget._items.length : Int) - eightItemWidget._maxVisibleItems = 5 := by
    decide
  have h4 : eightItemWidget._scrollOffset = 2 := by decide
  have h5 : round (((57 : Int) : ℚ) * min (((2 : Int) : ℚ) / ((5 : Int) : ℚ)) 1) = 23 := by
    rw [round_eq, Int.floor_eq_iff]
    have hmin : min (((2 : Int) : ℚ) / ((5 : Int) : ℚ)) 1 = 2 / 5 := by
      rw [min_eq_left] <;> norm_num
    rw [hmin]
    constructor <;> norm_num
  unfold specThumbY
  dsimp only
  rw [h1, h2, h3, h4, h5]
  rfl

/-- C19, amended: for every state with `items.length > maxVisibleItems`, with
`maxScrollOffset = items.length - maxVisibleItems` and `scrollRatio` the `float` quotient
`scrollOffset / maxScrollOffset` replaced by 1 when it exceeds 1, `drawScrollBar`
computes `thumbY = listTop + (int)((visibleListHeight - thumbHeight) * scrollRatio)`,
the `float` product with its fractional part discarded (rounded towards zero, not to
the nearest integer), except that `thumbY = listTop + visibleListHeight - thumbHeight`
exactly whenever `scrollOffset = maxScrollOffset`. -/
theorem thumbY_computation (c : UIComboBox)
    (hn : (c._items.length : Int) > c._maxVisibleItems) :
    c.scrollRatio =
        (if F32.lt (F32.ofInt 1)
            (F32.div (F32.ofInt c._scrollOffset)
              (F32.ofInt ((c._items.length : Int) - c._maxVisibleItems)))
          then F32.ofInt 1
          else F32.div (F32.ofInt c._scrollOffset)
            (F32.ofInt ((c._items.length : Int) - c._maxVisibleItems))) ∧
      (c._scrollOffset ≠ (c._items.length : Int) - c._maxVisibleItems →
        c.thumbY = c.rect.y + c._collapsedHeight +
          (F32.mul
            (F32.ofInt (min (c._items.length : Int) c._maxVisibleItems * c._style.itemHeight -
              c.thumbHeight))
            c.scrollRatio).toInt) ∧
      (c._scrollOffset = (c._items.length : Int) - c._maxVisibleItems →
        c.thumbY = c.rect.y + c._collapsedHeight +
          min (c._items.length : Int) c._maxVisibleItems * c._style.itemHeight - c.thumbHeight) := by
  refine ⟨?_, ?_, ?_⟩
  · unfold scrollRatio
    dsimp only
    rw [if_neg (by omega)]
  · intro hne
    unfold thumbY
    dsimp only
    rw [if_neg (by omega), if_neg hne]
  · intro heq
    unfold thumbY
    dsimp only
    rw [if_neg (by omega), if_pos heq]

/-- Witness of C19 (amended): on the eight-item widget (`scrollOffset = 2` of 5)
`thumbY = 20 + 22 = 42`; on the expanded five-item widget scrolled to the end by a press
on the bottom of the scroll bar (`scrollOffset = 2` of 2, `thumbHeight = 54`)
`thumbY = 20 + 90 - 54 = 56`. -/
theorem thumbY_computation_witness :
    ((eightItemWidget._items.length : Int) > eightItemWidget._maxVisibleItems ∧
        eightItemWidget._scrollOffset ≠
          (eightItemWidget._items.length : Int) - eightItemWidget._maxVisibleItems) ∧
      eightItemWidget.thumbY = 42 ∧
      (expandedFiveWidget.handlePress floatClickScroll 95 110).1._scrollOffset = 2 ∧
      (expandedFiveWidget.handlePress floatClickScroll 95 110).1.thumbY = 56 :=
  ⟨by decide,
    ((thumbY_computation eightItemWidget (by decide)).2.1 (by decide)).trans (by decide),
    by decide,
    ((thumbY_computation (expandedFiveWidget.handlePress floatClickScroll 95 110).1
      (by decide)).2.2 (by decide)).trans (by decide)⟩

/-! ## Guarded divisions -/

theorem inScrollBar_showing (c : UIComboBox) (tx ty : Int) (h : c.inScrollBar tx ty) :
    (c._items.length : Int) > toSizeT c._maxVisibleItems := by
  unfold inScrollBar at h
  exact h.1

theorem divisors_guarded_of_config (c : UIComboBox) (hm : c._maxVisibleItems ≥ 1)
    (hi : c._style.itemHeight ≥ 1) :
    (c.drawInternalScrollBar ≠ [] → (c._items.length : Int) > c._maxVisibleItems) ∧
      (c.drawInternalDivisors ≠ [] → (c._items.length : Int) > c._maxVisibleItems) ∧
      (∀ tx ty : Int, c.handlePressDivisors tx ty ≠ [] →
        (c._items.length : Int) > c._maxVisibleItems) ∧
      (∀ d ∈ c.drawInternalDivisors, 0 < d) ∧
      (∀ tx ty : Int, ∀ d ∈ c.handlePressDivisors tx ty, 0 < d) := by
  have hs : toSizeT c._maxVisibleItems = c._maxVisibleItems := toSizeT_of_nonneg _ (by omega)
  refine ⟨?_, ?_, ?_, ?_, ?_⟩
  · unfold drawInternalScrollBar
    rw [hs]
    intro h
    by_contra hn
    rw [if_neg hn] at h
    simp at h
  · unfold drawInternalDivisors
    rw [hs]
    intro h
    by_contra hn
    rw [if_neg hn] at h
    simp at h
  · intro tx ty h
    by_contra hn
    have hns : ¬ c.inScrollBar tx ty := fun h4 => hn (hs ▸ inScrollBar_showing c tx ty h4)
    apply h
    unfold handlePressDivisors
    rw [if_neg hns]
    split_ifs <;> rfl
  · intro d hd
    unfold drawInternalDivisors drawScrollBarDivisors at hd
    rw [hs] at hd
    dsimp only at hd
    split_ifs at hd <;> simp at hd <;> omega
  · intro tx ty d hd
    unfold handlePressDivisors at hd
    split_ifs at hd with h1 h2 h3 h4
    all_goals simp at hd
    have hshow : (c._items.length : Int) > c._maxVisibleItems :=
      hs ▸ inScrollBar_showing c tx ty h4
    subst hd
    rw [min_eq_right (by omega)]
    exact Int.mul_pos (by omega) (by omega)

/-- C20: for every configuration with `maxVisibleItems ≥ 1` and `itemHeight ≥ 1` and every
state reached from a freshly constructed widget, the scroll bar is drawn, and the
divisions of `drawInternal`/`drawScrollBar` and of `handlePress` are evaluated, only when
`items.length > maxVisibleItems`; every divisor evaluated (`items.length` and
`maxScrollOffset` in `drawScrollBar`, `visibleListHeight` in `handlePress`) is strictly
positive; with an empty item list nothing is drawn for the scroll bar and no division is
evaluated. -/
theorem divisions_guarded (fl : ClickScroll) (rect : UIRect) (style : UIComboBoxStyle)
    (enabled dirty : Bool) (ops : List Op) (c : UIComboBox)
    (hc : c = (run fl (construct rect style enabled dirty) ops).1)
    (hm : style.maxVisibleItems ≥ 1) (hi : style.itemHeight ≥ 1) :
    (c.drawInternalScrollBar ≠ [] → (c._items.length : Int) > style.maxVisibleItems) ∧
      (c.drawInternalDivisors ≠ [] → (c._items.length : Int) > style.maxVisibleItems) ∧
      (∀ tx ty : Int, c.handlePressDivisors tx ty ≠ [] →
        (c._items.length : Int) > style.maxVisibleItems) ∧
      (∀ d ∈ c.drawInternalDivisors, 0 < d) ∧
      (∀ tx ty : Int, ∀ d ∈ c.handlePressDivisors tx ty, 0 < d) ∧
      (c._items = [] → c.drawInternalScrollBar = [] ∧ c.drawInternalDivisors = [] ∧
        ∀ tx ty : Int, c.handlePressDivisors tx ty = []) := by
  obtain ⟨hs, _, hmv, _⟩ := run_sameConfig fl ops (construct rect style enabled dirty)
  rw [← hc] at hs hmv
  have hm1 : c._maxVisibleItems = style.maxVisibleItems := hmv
  have hi1 : c._style.itemHeight = style.itemHeight := by rw [hs]; rfl
  obtain ⟨g1, g2, g3, g4, g5⟩ := divisors_guarded_of_config c (by omega) (by omega)
  rw [hm1] at g1 g2 g3
  refine ⟨g1, g2, g3, g4, g5, ?_⟩
  intro he
  have hlen : ¬ ((c._items.length : Int) > style.maxVisibleItems) := by
    rw [he]
    simp
    omega
  refine ⟨?_, ?_, ?_⟩
  · by_contra h
    exact hlen (g1 h)
  · by_contra h
    exact hlen (g2 h)
  · intro tx ty
    by_contra h
    exact hlen (g3 tx ty h)

/-- Witness of C20: the expanded five-item widget is reached from a fresh widget with
`maxVisibleItems = 3` and `itemHeight = 30`; drawing it divides by 5 and by 2, a press on
its scroll bar divides by 90, and a press elsewhere divides by nothing. -/
theorem divisions_guarded_witness :
    (({} : UIComboBoxStyle).maxVisibleItems ≥ 1 ∧ ({} : UIComboBoxStyle).itemHeight ≥ 1) ∧
      expandedFiveWidget.drawInternalDivisors = [5, 2] ∧
      expandedFiveWidget.handlePressDivisors 95 60 = [90] ∧
      expandedFiveWidget.handlePressDivisors 5 60 = [] ∧
      (∀ d ∈ expandedFiveWidget.drawInternalDivisors, 0 < d) ∧
      (∀ d ∈ expandedFiveWidget.handlePressDivisors 95 60, 0 < d) :=
  ⟨by decide, by decide, by decide, by decide,
    (divisions_guarded exactClickScroll { x := 0, y := 0, w := 100, h := 20 } {} true false
      (addFive ++ [Op.setOnSelect true, Op.setOnCollapse true, Op.handlePress 5 5])
      expandedFiveWidget (by decide) (by decide) (by decide)).2.2.2.1,
    (divisions_guarded exactClickScroll { x := 0, y := 0, w := 100, h := 20 } {} true false
      (addFive ++ [Op.setOnSelect true, Op.setOnCollapse true, Op.handlePress 5 5])
      expandedFiveWidget (by decide) (by decide) (by decide)).2.2.2.2.1 95 60⟩

end UIComboBox

namespace F32

/-! ## Bounds on rounded values -/

theorem log2Fuel_spec : ∀ (fuel n : Nat), 1 ≤ n → n ≤ fuel →
    2 ^ log2Fuel fuel n ≤ n ∧ n < 2 ^ (log2Fuel fuel n + 1) := by
  intro fuel
  induction fuel with
  | zero => intro n h1 h2; omega
  | succ fuel ih =>
    intro n h1 h2
    unfold log2Fuel
    by_cases hn : n < 2
    · rw [if_pos hn]
      have : n = 1 := by omega
      subst this
      simp
    · rw [if_neg hn]
      obtain ⟨i1, i2⟩ := ih (n / 2) (by omega) (by omega)
      rw [pow_succ, pow_succ]
      rw [pow_succ] at i2
      constructor <;> omega

theorem log2_spec (n : Nat) (h : 1 ≤ n) : 2 ^ log2 n ≤ n ∧ n < 2 ^ (log2 n + 1) :=
  log2Fuel_spec n n h (le_refl n)

theorem roundHalfEven_le (num den K : Int) (hden : 0 < den) (h : num ≤ K * den) :
    roundHalfEven num den ≤ K := by
  have hf : num / den ≤ K := by
    have := Int.ediv_le_ediv hden h
    rwa [Int.mul_ediv_cancel _ (ne_of_gt hden)] at this
  have hdec := Int.emod_add_ediv num den
  have hr0 := Int.emod_nonneg num (ne_of_gt hden)
  unfold roundHalfEven
  dsimp only
  have hstep : 0 < num % den → num / den + 1 ≤ K := by
    intro hr
    by_contra hc
    have hfk : num / den = K := by omega
    rw [hfk] at hdec
    have : den * K = K * den := Int.mul_comm _ _
    omega
  split_ifs <;> omega

theorem roundHalfEven_ge (num den K : Int) (hden : 0 < den) (h : K * den ≤ num) :
    K ≤ roundHalfEven num den := by
  have hf : K ≤ num / den := by
    have := Int.ediv_le_ediv hden h
    rwa [Int.mul_ediv_cancel _ (ne_of_gt hden)] at this
  unfold roundHalfEven
  dsimp only
  split_ifs <;> omega

theorem two_zpow_pos (e : Int) : (0 : ℚ) < (2 : ℚ) ^ e :=
  zpow_pos (by norm_num) e

theorem log2_spec_rat (n : Nat) (h : 1 ≤ n) :
    (2 : ℚ) ^ (log2 n : Int) ≤ n ∧ (n : ℚ) < (2 : ℚ) ^ ((log2 n : Int) + 1) := by
  obtain ⟨h1, h2⟩ := log2_spec n h
  constructor
  · rw [zpow_natCast]
    exact_mod_cast h1
  · have : ((log2 n : Int) + 1) = ((log2 n + 1 : Nat) : Int) := by push_cast; ring
    rw [this, zpow_natCast]
    exact_mod_cast h2

theorem ilog2_le (p q : Nat) (hp : 1 ≤ p) (hq : 1 ≤ q) :
    (2 : ℚ) ^ ilog2 p q * q ≤ p := by
  obtain ⟨p1, _⟩ := log2_spec_rat p hp
  obtain ⟨_, q2⟩ := log2_spec_rat q hq
  have hq0 : (0 : ℚ) < q := by exact_mod_cast hq
  have two_ne : (2 : ℚ) ≠ 0 := by norm_num
  have hlow : (2 : ℚ) ^ ((log2 p : Int) - (log2 q : Int) - 1) * q ≤ p := by
    have h1 : (2 : ℚ) ^ ((log2 p : Int) - (log2 q : Int) - 1) * (2 : ℚ) ^ ((log2 q : Int) + 1) =
        (2 : ℚ) ^ (log2 p : Int) := by
      rw [← zpow_add₀ two_ne]
      congr 1
      ring
    have h2 : (2 : ℚ) ^ ((log2 p : Int) - (log2 q : Int) - 1) * q ≤
        (2 : ℚ) ^ ((log2 p : Int) - (log2 q : Int) - 1) * (2 : ℚ) ^ ((log2 q : Int) + 1) :=
      mul_le_mul_of_nonneg_left (le_of_lt q2) (le_of_lt (two_zpow_pos _))
    linarith
  unfold ilog2
  dsimp only
  split_ifs with h0 h1 h2
  · exact hlow
  · have hd : (((log2 p : Int) - (log2 q : Int)).toNat : Int) = (log2 p : Int) - (log2 q : Int) :=
      Int.toNat_of_nonneg h0
    rw [← hd, zpow_natCast]
    have : q * 2 ^ ((log2 p : Int) - (log2 q : Int)).toNat ≤ p := by omega
    have hc : ((q * 2 ^ ((log2 p : Int) - (log2 q : Int)).toNat : Nat) : ℚ) ≤ (p : ℚ) := by
      exact_mod_cast this
    push_cast at hc
    linarith
  · exact hlow
  · have hd : ((-((log2 p : Int) - (log2 q : Int))).toNat : Int) =
        -((log2 p : Int) - (log2 q : Int)) := Int.toNat_of_nonneg (by omega)
    have he : (log2 p : Int) - (log2 q : Int) =
        -(((-((log2 p : Int) - (log2 q : Int))).toNat : Nat) : Int) := by omega
    rw [he, zpow_neg, zpow_natCast]
    have : q ≤ p * 2 ^ (-((log2 p : Int) - (log2 q : Int))).toNat := by omega
    have hc : (q : ℚ) ≤ ((p * 2 ^ (-((log2 p : Int) - (log2 q : Int))).toNat : Nat) : ℚ) := by
      exact_mod_cast this
    push_cast at hc
    have hpos : (0 : ℚ) < (2 : ℚ) ^ (-((log2 p : Int) - (log2 q : Int))).toNat := by positivity
    rw [inv_mul_le_iff₀ hpos]
    linarith

theorem roundHalfEven_le_rat (num den K : Int) (hden : 0 < den)
    (h : (num : ℚ) / den ≤ K) : roundHalfEven num den ≤ K := by
  apply roundHalfEven_le num den K hden
  have hd : (0 : ℚ) < den := by exact_mod_cast hden
  rw [div_le_iff₀ hd] at h
  exact_mod_cast h

theorem roundHalfEven_ge_rat (num den K : Int) (hden : 0 < den)
    (h : (K : ℚ) ≤ (num : ℚ) / den) : K ≤ roundHalfEven num den := by
  apply roundHalfEven_ge num den K hden
  have hd : (0 : ℚ) < den := by exact_mod_cast hden
  rw [le_div_iff₀ hd] at h
  exact_mod_cast h

theorem round_pos_decomp (p q s : Int) (hp : 0 < p) (hq : 0 < q) :
    ∃ (mant l : Int), round p q s = { m := mant, e := l + s - 23 } ∧
      (2 : ℚ) ^ l * q ≤ p ∧
      (∀ K : Int, (p : ℚ) / q * (2 : ℚ) ^ (23 - l) ≤ K → mant ≤ K) ∧
      (∀ K : Int, (K : ℚ) ≤ (p : ℚ) / q * (2 : ℚ) ^ (23 - l) → K ≤ mant) := by
  have hq0 : (0 : ℚ) < q := by exact_mod_cast hq
  have hl : (2 : ℚ) ^ ilog2 p.natAbs q.natAbs * q ≤ p := by
    have h := ilog2_le p.natAbs q.natAbs (by omega) (by omega)
    have e1 : ((p.natAbs : Nat) : ℚ) = (p : ℚ) := by
      rw [← Int.cast_natCast, Int.natAbs_of_nonneg (le_of_lt hp)]
    have e2 : ((q.natAbs : Nat) : ℚ) = (q : ℚ) := by
      rw [← Int.cast_natCast, Int.natAbs_of_nonneg (le_of_lt hq)]
    rw [e1, e2] at h
    exact h
  unfold round
  rw [if_neg (ne_of_gt hp)]
  dsimp only
  by_cases hk : 23 - ilog2 p.natAbs q.natAbs ≥ 0
  · rw [if_pos hk]
    have hd : (((23 - ilog2 p.natAbs q.natAbs).toNat : Nat) : Int) =
        23 - ilog2 p.natAbs q.natAbs := Int.toNat_of_nonneg hk
    have hnum : ((p * 2 ^ (23 - ilog2 p.natAbs q.natAbs).toNat : Int) : ℚ) / q =
        (p : ℚ) / q * (2 : ℚ) ^ (23 - ilog2 p.natAbs q.natAbs) := by
      have hz : (2 : ℚ) ^ (23 - ilog2 p.natAbs q.natAbs) =
          (2 : ℚ) ^ (23 - ilog2 p.natAbs q.natAbs).toNat := by
        conv_lhs => rw [← hd]
        exact zpow_natCast _ _
      rw [hz]
      push_cast
      ring
    refine ⟨_, _, rfl, hl, ?_, ?_⟩
    · intro K hK
      exact roundHalfEven_le_rat _ _ K hq (hnum ▸ hK)
    · intro K hK
      exact roundHalfEven_ge_rat _ _ K hq (hnum ▸ hK)
  · rw [if_neg hk]
    have hd : (((-(23 - ilog2 p.natAbs q.natAbs)).toNat : Nat) : Int) =
        -(23 - ilog2 p.natAbs q.natAbs) := Int.toNat_of_nonneg (by omega)
    have hden : (0 : Int) < q * 2 ^ (-(23 - ilog2 p.natAbs q.natAbs)).toNat :=
      Int.mul_pos hq (by positivity)
    have he : 23 - ilog2 p.natAbs q.natAbs =
        -(((-(23 - ilog2 p.natAbs q.natAbs)).toNat : Nat) : Int) := by omega
    have hnum : (p : ℚ) / ((q * 2 ^ (-(23 - ilog2 p.natAbs q.natAbs)).toNat : Int) : ℚ) =
        (p : ℚ) / q * (2 : ℚ) ^ (23 - ilog2 p.natAbs q.natAbs) := by
      conv_rhs => rw [he, zpow_neg, zpow_natCast]
      push_cast
      field_simp
    refine ⟨_, _, rfl, hl, ?_, ?_⟩
    · intro K hK
      exact roundHalfEven_le_rat _ _ K hden (hnum ▸ hK)
    · intro K hK
      exact roundHalfEven_ge_rat _ _ K hden (hnum ▸ hK)

theorem zpow_neg_toNat (u : Int) (hu : u ≤ 0) :
    (((2 : Int) ^ (-u).toNat : Int) : ℚ) = (2 : ℚ) ^ (-u) := by
  have hd : (((-u).toNat : Nat) : Int) = -u := Int.toNat_of_nonneg (by omega)
  conv_rhs => rw [← hd]
  rw [zpow_natCast]
  push_cast
  rfl

theorem round_ge (p q s K : Int) (hp : 0 < p) (hq : 0 < q) (hK : K ≤ 16777216)
    (hx : (K : ℚ) ≤ (p : ℚ) / q * (2 : ℚ) ^ s) : (K : ℚ) ≤ (round p q s).toRat := by
  obtain ⟨mant, l, hr, hl, _, hge⟩ := round_pos_decomp p q s hp hq
  have hq0 : (0 : ℚ) < q := by exact_mod_cast hq
  have two_ne : (2 : ℚ) ≠ 0 := by norm_num
  rw [hr]
  unfold toRat
  dsimp only
  by_cases hu : l + s - 23 ≤ 0
  · have hsplit : (2 : ℚ) ^ (23 - l) = (2 : ℚ) ^ s * (2 : ℚ) ^ (-(l + s - 23)) := by
      rw [← zpow_add₀ two_ne]
      congr 1
      ring
    have hK1 : ((K * 2 ^ (-(l + s - 23)).toNat : Int) : ℚ) ≤
        (p : ℚ) / q * (2 : ℚ) ^ (23 - l) := by
      rw [hsplit, Int.cast_mul, zpow_neg_toNat _ hu, ← mul_assoc]
      exact mul_le_mul_of_nonneg_right hx (le_of_lt (two_zpow_pos _))
    have hm := hge _ hK1
    have hm1 : ((K * 2 ^ (-(l + s - 23)).toNat : Int) : ℚ) ≤ (mant : ℚ) := by exact_mod_cast hm
    rw [Int.cast_mul, zpow_neg_toNat _ hu] at hm1
    have hcancel : (2 : ℚ) ^ (-(l + s - 23)) * (2 : ℚ) ^ (l + s - 23) = 1 := by
      rw [← zpow_add₀ two_ne]
      simp
    calc (K : ℚ) = (K : ℚ) * ((2 : ℚ) ^ (-(l + s - 23)) * (2 : ℚ) ^ (l + s - 23)) := by
          rw [hcancel, mul_one]
      _ = (K : ℚ) * (2 : ℚ) ^ (-(l + s - 23)) * (2 : ℚ) ^ (l + s - 23) := by ring
      _ ≤ (mant : ℚ) * (2 : ℚ) ^ (l + s - 23) :=
          mul_le_mul_of_nonneg_right hm1 (le_of_lt (two_zpow_pos _))
  · have h23 : (((2 : Int) ^ 23 : Int) : ℚ) ≤ (p : ℚ) / q * (2 : ℚ) ^ (23 - l) := by
      have h1 : (2 : ℚ) ^ l ≤ (p : ℚ) / q := by
        rw [le_div_iff₀ hq0]
        exact hl
      have h2 : (2 : ℚ) ^ l * (2 : ℚ) ^ (23 - l) = (2 : ℚ) ^ (23 : Nat) := by
        rw [← zpow_add₀ two_ne, ← zpow_natCast]
        congr 1
        push_cast
        ring
      have h3 := mul_le_mul_of_nonneg_right h1 (le_of_lt (two_zpow_pos (23 - l)))
      rw [h2] at h3
      push_cast
      exact h3
    have hm := hge _ h23
    have hm1 : (((2 : Int) ^ 23 : Int) : ℚ) ≤ (mant : ℚ) := by exact_mod_cast hm
    have hpow : (2 : ℚ) ^ (1 : Int) ≤ (2 : ℚ) ^ (l + s - 23) :=
      zpow_le_zpow_right₀ (by norm_num) (by omega)
    have hK2 : (K : ℚ) ≤ 16777216 := by exact_mod_cast hK
    have hmant0 : (0 : ℚ) ≤ (mant : ℚ) := le_trans (by positivity) hm1
    calc (K : ℚ) ≤ 16777216 := hK2
      _ = (((2 : Int) ^ 23 : Int) : ℚ) * (2 : ℚ) ^ (1 : Int) := by norm_num
      _ ≤ (mant : ℚ) * (2 : ℚ) ^ (1 : Int) :=
          mul_le_mul_of_nonneg_right hm1 (by norm_num)
      _ ≤ (mant : ℚ) * (2 : ℚ) ^ (l + s - 23) := mul_le_mul_of_nonneg_left hpow hmant0

theorem round_nonneg (p q s : Int) (hp : 0 ≤ p) (hq : 0 < q) : 0 ≤ (round p q s).toRat := by
  by_cases h0 : p = 0
  · subst h0
    unfold round toRat
    simp
  · have hp1 : 0 < p := by omega
    have hq0 : (0 : ℚ) < q := by exact_mod_cast hq
    have hp0 : (0 : ℚ) < p := by exact_mod_cast hp1
    have := round_ge p q s 0 hp1 hq (by norm_num) (by
      have := two_zpow_pos s
      push_cast
      positivity)
    exact_mod_cast this

theorem round_le (p q s K : Int) (hp : 0 ≤ p) (hq : 0 < q) (hK0 : 0 ≤ K) (hK : K ≤ 16777216)
    (hx : (p : ℚ) / q * (2 : ℚ) ^ s ≤ K) : (round p q s).toRat ≤ K := by
  by_cases h0 : p = 0
  · subst h0
    have hK1 : (0 : ℚ) ≤ K := by exact_mod_cast hK0
    unfold round toRat
    simpa using hK1
  have hp1 : 0 < p := by omega
  obtain ⟨mant, l, hr, hl, hle, _⟩ := round_pos_decomp p q s hp1 hq
  have hq0 : (0 : ℚ) < q := by exact_mod_cast hq
  have two_ne : (2 : ℚ) ≠ 0 := by norm_num
  have hK2 : (K : ℚ) ≤ 16777216 := by exact_mod_cast hK
  rw [hr]
  unfold toRat
  dsimp only
  have hsplit : (2 : ℚ) ^ (23 - l) = (2 : ℚ) ^ s * (2 : ℚ) ^ (-(l + s - 23)) := by
    rw [← zpow_add₀ two_ne]
    congr 1
    ring
  have hcancel : (2 : ℚ) ^ (-(l + s - 23)) * (2 : ℚ) ^ (l + s - 23) = 1 := by
    rw [← zpow_add₀ two_ne]
    simp
  by_cases hu : l + s - 23 ≤ 0
  · have hK1 : (p : ℚ) / q * (2 : ℚ) ^ (23 - l) ≤
        ((K * 2 ^ (-(l + s - 23)).toNat : Int) : ℚ) := by
      rw [hsplit, Int.cast_mul, zpow_neg_toNat _ hu, ← mul_assoc]
      exact mul_le_mul_of_nonneg_right hx (le_of_lt (two_zpow_pos _))
    have hm := hle _ hK1
    have hm1 : (mant : ℚ) ≤ ((K * 2 ^ (-(l + s - 23)).toNat : Int) : ℚ) := by exact_mod_cast hm
    rw [Int.cast_mul, zpow_neg_toNat _ hu] at hm1
    calc (mant : ℚ) * (2 : ℚ) ^ (l + s - 23)
        ≤ (K : ℚ) * (2 : ℚ) ^ (-(l + s - 23)) * (2 : ℚ) ^ (l + s - 23) :=
          mul_le_mul_of_nonneg_right hm1 (le_of_lt (two_zpow_pos _))
      _ = (K : ℚ) * ((2 : ℚ) ^ (-(l + s - 23)) * (2 : ℚ) ^ (l + s - 23)) := by ring
      _ = (K : ℚ) := by rw [hcancel, mul_one]
  · -- the value is at least `2 ^ (l + s)`, hence `l + s = 24`
    have hxlow : (2 : ℚ) ^ (l + s) ≤ (p : ℚ) / q * (2 : ℚ) ^ s := by
      have h1 : (2 : ℚ) ^ l ≤ (p : ℚ) / q := by
        rw [le_div_iff₀ hq0]
        exact hl
      rw [zpow_add₀ two_ne]
      exact mul_le_mul_of_nonneg_right h1 (le_of_lt (two_zpow_pos s))
    have hu1 : l + s - 23 = 1 := by
      by_contra hne
      have h25 : (2 : ℚ) ^ (25 : Int) ≤ (2 : ℚ) ^ (l + s) :=
        zpow_le_zpow_right₀ (by norm_num) (by omega)
      have : (2 : ℚ) ^ (25 : Int) ≤ 16777216 := le_trans h25 (le_trans hxlow (le_trans hx hK2))
      norm_num at this
    have hls : l + s = 24 := by omega
    rw [hls] at hxlow
    have hxK : (16777216 : ℚ) ≤ K := by
      have h24 : (2 : ℚ) ^ (24 : Int) = 16777216 := by norm_num
      rw [h24] at hxlow
      exact le_trans hxlow hx
    have hneg : -(l + s - 23) = -1 := by omega
    have hy : (p : ℚ) / q * (2 : ℚ) ^ (23 - l) ≤ (((2 : Int) ^ 23 : Int) : ℚ) := by
      rw [hsplit, hneg, ← mul_assoc]
      have h1 : (p : ℚ) / q * (2 : ℚ) ^ s ≤ 16777216 := le_trans hx hK2
      have h2 : (2 : ℚ) ^ (-1 : Int) = 1 / 2 := by norm_num
      rw [h2]
      push_cast
      linarith
    have hm := hle _ hy
    have hm1 : (mant : ℚ) ≤ (((2 : Int) ^ 23 : Int) : ℚ) := by exact_mod_cast hm
    rw [hu1]
    have h2 : (2 : ℚ) ^ (1 : Int) = 2 := by norm_num
    rw [h2]
    push_cast at hm1
    linarith

theorem m_nonneg_of_toRat_nonneg (a : F32) (h : 0 ≤ a.toRat) : 0 ≤ a.m := by
  unfold toRat at h
  have h1 : (0 : ℚ) ≤ (a.m : ℚ) := nonneg_of_mul_nonneg_left h (two_zpow_pos a.e)
  exact_mod_cast h1

theorem m_pos_of_toRat_pos (a : F32) (h : 0 < a.toRat) : 0 < a.m := by
  unfold toRat at h
  have h1 : (0 : ℚ) < (a.m : ℚ) := pos_of_mul_pos_left h (le_of_lt (two_zpow_pos a.e))
  exact_mod_cast h1

theorem ofInt_nonneg (i : Int) (h : 0 ≤ i) : 0 ≤ (ofInt i).toRat :=
  round_nonneg i 1 0 h (by norm_num)

theorem ofInt_le (i K : Int) (h0 : 0 ≤ i) (h : i ≤ K) (hK : K ≤ 16777216) :
    (ofInt i).toRat ≤ K := by
  apply round_le i 1 0 K h0 (by norm_num) (by omega) hK
  have : (i : ℚ) ≤ K := by exact_mod_cast h
  simpa using this

theorem ofInt_ge (i K : Int) (h0 : 0 < i) (h : K ≤ i) (hK : K ≤ 16777216) :
    (K : ℚ) ≤ (ofInt i).toRat := by
  apply round_ge i 1 0 K h0 (by norm_num) hK
  have : (K : ℚ) ≤ i := by exact_mod_cast h
  simpa using this

theorem ofInt_exact (i : Int) (h0 : 0 ≤ i) (h : i ≤ 16777216) : (ofInt i).toRat = i := by
  by_cases hz : i = 0
  · subst hz
    unfold ofInt round toRat
    simp
  · exact le_antisymm (ofInt_le i i h0 (le_refl i) h) (ofInt_ge i i (by omega) (le_refl i) h)

theorem div_value (a b : F32) (hb : 0 < b.m) :
    (a.m : ℚ) / b.m * (2 : ℚ) ^ (a.e - b.e) = a.toRat / b.toRat := by
  have two_ne : (2 : ℚ) ≠ 0 := by norm_num
  have hb0 : (b.m : ℚ) ≠ 0 := by
    have : (0 : ℚ) < b.m := by exact_mod_cast hb
    exact ne_of_gt this
  unfold toRat
  rw [zpow_sub₀ two_ne]
  have := ne_of_gt (two_zpow_pos b.e)
  field_simp

theorem div_toRat_nonneg (a b : F32) (ha : 0 ≤ a.toRat) (hb : 0 < b.toRat) :
    0 ≤ (div a b).toRat := by
  have hbm := m_pos_of_toRat_pos b hb
  unfold div
  rw [if_pos hbm]
  exact round_nonneg _ _ _ (m_nonneg_of_toRat_nonneg a ha) hbm

theorem div_toRat_le_one (a b : F32) (ha : 0 ≤ a.toRat) (hb : 0 < b.toRat) (hab : a.toRat ≤ b.toRat) :
    (div a b).toRat ≤ 1 := by
  have hbm := m_pos_of_toRat_pos b hb
  unfold div
  rw [if_pos hbm]
  have := round_le a.m b.m (a.e - b.e) 1 (m_nonneg_of_toRat_nonneg a ha) hbm (by norm_num)
    (by norm_num) (by
      rw [div_value a b hbm, div_le_iff₀ hb]
      simpa using hab)
  simpa using this

theorem mul_value (a b : F32) :
    ((a.m * b.m : Int) : ℚ) / ((1 : Int) : ℚ) * (2 : ℚ) ^ (a.e + b.e) = a.toRat * b.toRat := by
  have two_ne : (2 : ℚ) ≠ 0 := by norm_num
  unfold toRat
  rw [zpow_add₀ two_ne]
  push_cast
  ring

theorem mul_toRat_nonneg (a b : F32) (ha : 0 ≤ a.toRat) (hb : 0 ≤ b.toRat) :
    0 ≤ (mul a b).toRat := by
  unfold mul
  exact round_nonneg _ _ _
    (Int.mul_nonneg (m_nonneg_of_toRat_nonneg a ha) (m_nonneg_of_toRat_nonneg b hb))
    (by norm_num)

theorem mul_toRat_le (a b : F32) (K : Int) (ha : 0 ≤ a.toRat) (hb : 0 ≤ b.toRat) (hK0 : 0 ≤ K)
    (hK : K ≤ 16777216) (h : a.toRat * b.toRat ≤ K) : (mul a b).toRat ≤ K := by
  unfold mul
  exact round_le _ _ _ K
    (Int.mul_nonneg (m_nonneg_of_toRat_nonneg a ha) (m_nonneg_of_toRat_nonneg b hb))
    (by norm_num) hK0 hK (by rw [mul_value]; exact h)

theorem lt_iff (a b : F32) : lt a b = true ↔ a.toRat < b.toRat := by
  have two_ne : (2 : ℚ) ≠ 0 := by norm_num
  have key : ∀ (m e e0 : Int), e0 ≤ e →
      ((m * 2 ^ (e - e0).toNat : Int) : ℚ) = (m : ℚ) * (2 : ℚ) ^ e * (2 : ℚ) ^ (-e0) := by
    intro m e e0 h
    have hd : (((e - e0).toNat : Nat) : Int) = e - e0 := Int.toNat_of_nonneg (by omega)
    have hz : (2 : ℚ) ^ e * (2 : ℚ) ^ (-e0) = (2 : ℚ) ^ (e - e0).toNat := by
      rw [← zpow_add₀ two_ne, ← zpow_natCast, hd]
      congr 1
    rw [mul_assoc, hz]
    push_cast
    rfl
  unfold lt toRat
  dsimp only
  rw [decide_eq_true_iff]
  have hpos := two_zpow_pos (-(min a.e b.e))
  constructor
  · intro h
    have h1 : ((a.m * 2 ^ (a.e - min a.e b.e).toNat : Int) : ℚ) <
        ((b.m * 2 ^ (b.e - min a.e b.e).toNat : Int) : ℚ) := by exact_mod_cast h
    rw [key _ _ _ (min_le_left _ _), key _ _ _ (min_le_right _ _)] at h1
    exact lt_of_mul_lt_mul_right h1 (le_of_lt hpos)
  · intro h
    have h1 := mul_lt_mul_of_pos_right h hpos
    rw [← key _ _ _ (min_le_left _ _), ← key _ _ _ (min_le_right _ _)] at h1
    exact_mod_cast h1

theorem toInt_nonneg (a : F32) (h : 0 ≤ a.toRat) : 0 ≤ a.toInt := by
  have hm := m_nonneg_of_toRat_nonneg a h
  unfold toInt
  split_ifs
  · exact Int.mul_nonneg hm (by positivity)
  · rw [Int.tdiv_eq_ediv hm (by positivity)]
    exact Int.ediv_nonneg hm (by positivity)

theorem toInt_le (a : F32) (K : Int) (h0 : 0 ≤ a.toRat) (h : a.toRat ≤ K) : a.toInt ≤ K := by
  have hm := m_nonneg_of_toRat_nonneg a h0
  have two_ne : (2 : ℚ) ≠ 0 := by norm_num
  unfold toInt
  unfold toRat at h
  split_ifs with he
  · have hd : ((a.e.toNat : Nat) : Int) = a.e := Int.toNat_of_nonneg he
    have hz : (2 : ℚ) ^ a.e = (2 : ℚ) ^ a.e.toNat := by
      conv_lhs => rw [← hd]
      exact zpow_natCast _ _
    rw [hz] at h
    have : ((a.m * 2 ^ a.e.toNat : Int) : ℚ) ≤ (K : ℚ) := by
      push_cast
      exact h
    exact_mod_cast this
  · rw [Int.tdiv_eq_ediv hm (by positivity)]
    have hd : (((-a.e).toNat : Nat) : Int) = -a.e := Int.toNat_of_nonneg (by omega)
    have hpos : (0 : ℚ) < (2 : ℚ) ^ (-a.e).toNat := by positivity
    have hz : (2 : ℚ) ^ a.e = ((2 : ℚ) ^ (-a.e).toNat)⁻¹ := by
      rw [← zpow_natCast, hd, zpow_neg, inv_inv]
    rw [hz, ← div_eq_mul_inv, div_le_iff₀ hpos] at h
    have h1 : a.m ≤ K * 2 ^ (-a.e).toNat := by exact_mod_cast h
    have hdpos : (0 : Int) < 2 ^ (-a.e).toNat := by positivity
    have := Int.ediv_le_ediv hdpos h1
    rwa [Int.mul_ediv_cancel _ (ne_of_gt hdpos)] at this

theorem thumbHeight_product_beyond_exact_range :
    (mul (ofInt (16777219 * 1)) (div (ofInt 16777219) (ofInt 16777220))).toInt = 16777220 := by
  decide

end F32

namespace UIComboBox

/-! ## The thumb inside its track -/

theorem thumbHeight_bounds (c : UIComboBox) (hm : 1 ≤ c._maxVisibleItems)
    (hih : 1 ≤ c._style.itemHeight) (hn : (c._items.length : Int) > c._maxVisibleItems)
    (hlo : 10 ≤ c._maxVisibleItems * c._style.itemHeight)
    (hhi : c._maxVisibleItems * c._style.itemHeight ≤ 16777216) :
    10 ≤ c.thumbHeight ∧ c.thumbHeight ≤ c._maxVisibleItems * c._style.itemHeight := by
  have hmin : min (c._items.length : Int) c._maxVisibleItems = c._maxVisibleItems :=
    min_eq_right (le_of_lt hn)
  have hmle : c._maxVisibleItems ≤ c._maxVisibleItems * c._style.itemHeight := by
    nlinarith
  -- the converted operands
  have fm : (F32.ofInt c._maxVisibleItems).toRat = c._maxVisibleItems :=
    F32.ofInt_exact _ (by omega) (by omega)
  have fn : (c._maxVisibleItems : ℚ) ≤ (F32.ofInt (c._items.length : Int)).toRat :=
    F32.ofInt_ge _ _ (by omega) (le_of_lt hn) (by omega)
  have fv : (F32.ofInt (c._maxVisibleItems * c._style.itemHeight)).toRat =
      ((c._maxVisibleItems * c._style.itemHeight : Int) : ℚ) :=
    F32.ofInt_exact _ (by omega) hhi
  have hm0 : (0 : ℚ) < (c._maxVisibleItems : ℚ) := by exact_mod_cast hm
  -- the ratio lies in [0, 1]
  have r0 := F32.div_toRat_nonneg (F32.ofInt c._maxVisibleItems)
    (F32.ofInt (c._items.length : Int)) (by rw [fm]; exact le_of_lt hm0) (lt_of_lt_of_le hm0 fn)
  have r1 := F32.div_toRat_le_one (F32.ofInt c._maxVisibleItems)
    (F32.ofInt (c._items.length : Int)) (by rw [fm]; exact le_of_lt hm0) (lt_of_lt_of_le hm0 fn)
    (by rw [fm]; exact fn)
  -- the product lies in [0, visibleListHeight]
  have hv0 : (0 : ℚ) ≤ ((c._maxVisibleItems * c._style.itemHeight : Int) : ℚ) := by
    have : (0 : Int) ≤ c._maxVisibleItems * c._style.itemHeight := by omega
    exact_mod_cast this
  have p0 := F32.mul_toRat_nonneg (F32.ofInt (c._maxVisibleItems * c._style.itemHeight))
    (F32.div (F32.ofInt c._maxVisibleItems) (F32.ofInt (c._items.length : Int)))
    (by rw [fv]; exact hv0) r0
  have p1 := F32.mul_toRat_le (F32.ofInt (c._maxVisibleItems * c._style.itemHeight))
    (F32.div (F32.ofInt c._maxVisibleItems) (F32.ofInt (c._items.length : Int)))
    (c._maxVisibleItems * c._style.itemHeight) (by rw [fv]; exact hv0) r0 (by omega) hhi
    (by rw [fv]; exact mul_le_of_le_one_right hv0 r1)
  have t0 := F32.toInt_nonneg _ p0
  have t1 := F32.toInt_le _ _ p0 p1
  unfold thumbHeight
  dsimp only
  rw [hmin]
  split_ifs <;> omega

theorem scrollRatio_bounds (c : UIComboBox)
    (hn : (c._items.length : Int) > c._maxVisibleItems) (hso : 0 ≤ c._scrollOffset) :
    0 ≤ c.scrollRatio.toRat ∧ c.scrollRatio.toRat ≤ 1 := by
  have one : (F32.ofInt 1).toRat = 1 := by
    have := F32.ofInt_exact 1 (by norm_num) (by norm_num)
    simpa using this
  have fso := F32.ofInt_nonneg c._scrollOffset hso
  have fmso : (0 : ℚ) < (F32.ofInt ((c._items.length : Int) - c._maxVisibleItems)).toRat := by
    have := F32.ofInt_ge ((c._items.length : Int) - c._maxVisibleItems) 1 (by omega) (by omega)
      (by norm_num)
    have h1 : ((1 : Int) : ℚ) = 1 := by norm_num
    rw [h1] at this
    linarith
  have r0 := F32.div_toRat_nonneg (F32.ofInt c._scrollOffset)
    (F32.ofInt ((c._items.length : Int) - c._maxVisibleItems)) fso fmso
  unfold scrollRatio
  dsimp only
  rw [if_neg (by omega)]
  by_cases hlt : F32.lt (F32.ofInt 1)
      (F32.div (F32.ofInt c._scrollOffset)
        (F32.ofInt ((c._items.length : Int) - c._maxVisibleItems))) = true
  · rw [if_pos hlt, one]
    norm_num
  · rw [if_neg hlt]
    rw [F32.lt_iff, one] at hlt
    exact ⟨r0, not_lt.mp hlt⟩

theorem thumb_in_track_of_config (c : UIComboBox) (hm : 1 ≤ c._maxVisibleItems)
    (hih : 1 ≤ c._style.itemHeight) (hn : (c._items.length : Int) > c._maxVisibleItems)
    (hso : 0 ≤ c._scrollOffset)
    (hlo : 10 ≤ c._maxVisibleItems * c._style.itemHeight)
    (hhi : c._maxVisibleItems * c._style.itemHeight ≤ 16777216) :
    c.rect.y + c._collapsedHeight ≤ c.thumbY ∧
      c.thumbY + c.thumbHeight ≤ c.rect.y + c._collapsedHeight +
        min (c._items.length : Int) c._maxVisibleItems * c._style.itemHeight := by
  have hmin : min (c._items.length : Int) c._maxVisibleItems = c._maxVisibleItems :=
    min_eq_right (le_of_lt hn)
  obtain ⟨th0, th1⟩ := thumbHeight_bounds c hm hih hn hlo hhi
  obtain ⟨s0, s1⟩ := scrollRatio_bounds c hn hso
  have fd : (F32.ofInt (c._maxVisibleItems * c._style.itemHeight - c.thumbHeight)).toRat =
      ((c._maxVisibleItems * c._style.itemHeight - c.thumbHeight : Int) : ℚ) :=
    F32.ofInt_exact _ (by omega) (by omega)
  have hd0 : (0 : ℚ) ≤ ((c._maxVisibleItems * c._style.itemHeight - c.thumbHeight : Int) : ℚ) := by
    have : (0 : Int) ≤ c._maxVisibleItems * c._style.itemHeight - c.thumbHeight := by omega
    exact_mod_cast this
  have q0 := F32.mul_toRat_nonneg
    (F32.ofInt (c._maxVisibleItems * c._style.itemHeight - c.thumbHeight)) c.scrollRatio
    (by rw [fd]; exact hd0) s0
  have q1 := F32.mul_toRat_le
    (F32.ofInt (c._maxVisibleItems * c._style.itemHeight - c.thumbHeight)) c.scrollRatio
    (c._maxVisibleItems * c._style.itemHeight - c.thumbHeight) (by rw [fd]; exact hd0) s0
    (by omega) (by omega) (by rw [fd]; exact mul_le_of_le_one_right hd0 s1)
  have t0 := F32.toInt_nonneg _ q0
  have t1 := F32.toInt_le _ _ q0 q1
  unfold thumbY
  dsimp only
  rw [hmin, if_neg (by omega)]
  split_ifs <;> omega

/-- C21, counterexample: the widget with `maxVisibleItems = 1`, `itemHeight = 5` and two
items, expanded by a press on its header, has a track from `listTop = 20` of height
`visibleListHeight = 5`, while `drawScrollBar` raises `thumbHeight` from
`(int)(5 * 0.5) = 2` to the minimum 10.  At `scrollOffset = 0` it computes `thumbY = 20`,
so the thumb ends at 30, below the track end 25; after `setSelectedIndex(1)`
(`scrollOffset = maxScrollOffset = 1`) it computes `thumbY = 20 + 5 - 10 = 15`, above
`listTop`. -/
theorem thumb_leaves_short_track :
    shortTrackWidget._maxVisibleItems ≥ 1 ∧ shortTrackWidget._style.itemHeight ≥ 1 ∧
      shortTrackWidget._isExpanded = true ∧
      (shortTrackWidget._items.length : Int) > shortTrackWidget._maxVisibleItems ∧
      shortTrackWidget.rect.y + shortTrackWidget._collapsedHeight = 20 ∧
      min (shortTrackWidget._items.length : Int) shortTrackWidget._maxVisibleItems *
        shortTrackWidget._style.itemHeight = 5 ∧
      shortTrackWidget.thumbHeight = 10 ∧
      shortTrackWidget.thumbY = 20 ∧
      ¬ (shortTrackWidget.thumbY + shortTrackWidget.thumbHeight ≤
        shortTrackWidget.rect.y + shortTrackWidget._collapsedHeight +
          min (shortTrackWidget._items.length : Int) shortTrackWidget._maxVisibleItems *
            shortTrackWidget._style.itemHeight) ∧
      (shortTrackWidget.setSelectedIndex 1).1._isExpanded = true ∧
      (shortTrackWidget.setSelectedIndex 1).1.thumbY = 15 ∧
      ¬ (shortTrackWidget.rect.y + shortTrackWidget._collapsedHeight ≤
        (shortTrackWidget.setSelectedIndex 1).1.thumbY) := by
  decide

/-- C21, amended: for every configuration with `maxVisibleItems ≥ 1`, `itemHeight ≥ 1` and
`10 ≤ maxVisibleItems * itemHeight ≤ 2^24` (a track at least as high as the minimum thumb,
and within the integers that `float` represents exactly), and every state reached from a
freshly constructed widget (expanded or not) with `items.length > maxVisibleItems`, the
thumb geometry computed by `drawScrollBar` satisfies `listTop ≤ thumbY` and
`thumbY + thumbHeight ≤ listTop + visibleListHeight`, where `thumbHeight ≥ 10`. -/
theorem thumb_in_track (fl : ClickScroll) (rect : UIRect) (style : UIComboBoxStyle)
    (enabled dirty : Bool) (ops : List Op) (c : UIComboBox)
    (hc : c = (run fl (construct rect style enabled dirty) ops).1)
    (hm : style.maxVisibleItems ≥ 1) (hih : style.itemHeight ≥ 1)
    (hlo : 10 ≤ style.maxVisibleItems * style.itemHeight)
    (hhi : style.maxVisibleItems * style.itemHeight ≤ 16777216)
    (hn : (c._items.length : Int) > style.maxVisibleItems) :
    c.rect.y + c._collapsedHeight ≤ c.thumbY ∧
      c.thumbY + c.thumbHeight ≤ c.rect.y + c._collapsedHeight +
        min (c._items.length : Int) c._maxVisibleItems * c._style.itemHeight ∧
      10 ≤ c.thumbHeight := by
  obtain ⟨hs, _, hmv, _⟩ := run_sameConfig fl ops (construct rect style enabled dirty)
  have hb := run_scrollInBounds fl ops _ (construct_scrollInBounds rect style enabled dirty)
  rw [← hc] at hs hmv hb
  have hm1 : c._maxVisibleItems = style.maxVisibleItems := hmv
  have hi1 : c._style.itemHeight = style.itemHeight := by rw [hs]; rfl
  have h1 : 1 ≤ c._maxVisibleItems := by omega
  have h2 : 1 ≤ c._style.itemHeight := by omega
  have h3 : (c._items.length : Int) > c._maxVisibleItems := by omega
  have h4 : 10 ≤ c._maxVisibleItems * c._style.itemHeight := by rw [hm1, hi1]; exact hlo
  have h5 : c._maxVisibleItems * c._style.itemHeight ≤ 16777216 := by rw [hm1, hi1]; exact hhi
  obtain ⟨g1, g2⟩ := thumb_in_track_of_config c h1 h2 h3 hb.1 h4 h5
  exact ⟨g1, g2, (thumbHeight_bounds c h1 h2 h3 h4 h5).1⟩

/-- Witness of C21 (amended): the expanded five-item widget is reached from a fresh widget
with `maxVisibleItems = 3` and `itemHeight = 30`, so its track is 90 high from
`listTop = 20`; its thumb is 54 high at `thumbY = 20` and ends at 74, inside the track. -/
theorem thumb_in_track_witness :
    (({} : UIComboBoxStyle).maxVisibleItems ≥ 1 ∧ ({} : UIComboBoxStyle).itemHeight ≥ 1 ∧
        10 ≤ ({} : UIComboBoxStyle).maxVisibleItems * ({} : UIComboBoxStyle).itemHeight ∧
        ({} : UIComboBoxStyle).maxVisibleItems * ({} : UIComboBoxStyle).itemHeight ≤ 16777216 ∧
        (expandedFiveWidget._items.length : Int) > ({} : UIComboBoxStyle).maxVisibleItems) ∧
      expandedFiveWidget.thumbHeight = 54 ∧
      expandedFiveWidget.thumbY = 20 ∧
      (expandedFiveWidget.rect.y + expandedFiveWidget._collapsedHeight ≤
          expandedFiveWidget.thumbY ∧
        expandedFiveWidget.thumbY + expandedFiveWidget.thumbHeight ≤
          expandedFiveWidget.rect.y + expandedFiveWidget._collapsedHeight +
            min (expandedFiveWidget._items.length : Int) expandedFiveWidget._maxVisibleItems *
              expandedFiveWidget._style.itemHeight ∧
        10 ≤ expandedFiveWidget.thumbHeight) :=
  ⟨by decide, by decide, by decide,
    thumb_in_track exactClickScroll { x := 0, y := 0, w := 100, h := 20 } {} true false
      (addFive ++ [Op.setOnSelect true, Op.setOnCollapse true, Op.handlePress 5 5])
      expandedFiveWidget (by decide) (by decide) (by decide) (by decide) (by decide)
      (by decide)⟩

end UIComboBox
